import Mathlib

/-!
Verification of `icons_generator.py`, a Blender batch icon-rendering script.

The script is UI automation over a host (Blender) scene graph.  We embed the
host state the script reads and writes as explicit data:

* `SceneObject` models a `bpy.data.objects` entry with the fields the script
  touches: `id` (object identity), `name`, `type` (`"MESH"`, `"LIGHT"`,
  `"CAMERA"`, ...), the world-space bounding-box corner snapshot
  (`obj.matrix_world @ corner` for `corner in obj.bound_box`, line 18 of the
  source), `scale`, `location`, the light `energy`, and `hide_render`.
  `rotation_euler` is set only to the irrational constant `radians(90)` and is
  read by no claim, so it is not modelled.  The world-space bounding box is
  host-derived state; we model the snapshot the script reads.  The transform
  operators in `standardize_object` (`transform_apply`, `origin_set`,
  `location_clear`) only bake transforms or translate the object in world
  space, and the extents read by `scale_object_to_fit_camera` are
  translation-invariant, so the snapshot is kept through those operators.
* `SceneCollection` models a `bpy.data.collections` entry: its name and the
  ids of the objects linked to it.  Blender keys collections by name
  (names are unique), so linking/unlinking is modelled by name.  Every
  collection in the list is linked under the scene root, hence its objects
  are the scene / view-layer objects.
* `RenderSettings` models `bpy.context.scene.render`.
* Machine `float` arithmetic is modelled by `ℚ`; Python's raising operations
  (`min`/`max` of an empty sequence, division by zero) return
  `Except.error`.
* Host side effects are recorded in an event trace `Event`: `print` calls,
  `bpy.ops` operator calls, directory creation and `render(write_still=True)`
  calls (recorded with the render filepath in effect).  Prints that occur
  after state reads but before a raise are not recorded on error paths.
-/

/-! ## Definitions: the embedded data model and the script -/

/-- The resolutions to render (source line 7). -/
def RESOLUTIONS : List Nat := [1024, 512, 256, 128, 64]

/-- A 3-vector of rationals modelling a `mathutils.Vector`. -/
structure Vec3 where
  x : ℚ
  y : ℚ
  z : ℚ
deriving DecidableEq, Repr

/-- A scene object (`bpy.data.objects` entry) with the fields the script
touches. -/
structure SceneObject where
  id : Nat
  name : String
  type : String
  bound_box_world : List Vec3
  scale : Vec3
  location : Vec3
  energy : ℚ
  hide_render : Bool
deriving DecidableEq, Repr

/-- A `bpy.data.collections` entry: name and linked object ids.  Blender
enforces globally unique collection names, so name equality is collection
identity. -/
structure SceneCollection where
  name : String
  objectIds : List Nat
deriving DecidableEq, Repr

/-- The fields of `bpy.context.scene.render` the script touches
(`image_settings.file_format` and `image_settings.color_mode` are flattened
in). -/
structure RenderSettings where
  resolution_x : Nat
  resolution_y : Nat
  file_format : String
  color_mode : String
  film_transparent : Bool
  filepath : String
deriving DecidableEq, Repr

/-- Host side effects recorded as an event trace. -/
inductive Event where
  | printed (msg : String)
  | opModeSet (mode : String)
  | opTransformApply (applyScale applyRotation : Bool)
  | opOriginSet (originType originCenter : String)
  | opLocationClear (clearDelta : Bool)
  | madeDir (path : String)
  | renderedStill (path : String)
deriving DecidableEq, Repr

/-- The host scene state read and written by the script.  `nextId` is the
supply of fresh object identities for `bpy.data.objects.new`. -/
structure SceneState where
  collections : List SceneCollection
  objects : List SceneObject
  render : RenderSettings
  sceneCamera : Option Nat
  mode : String
  nextId : Nat
deriving DecidableEq, Repr

/-- Python `min` over a list; raises `ValueError` on an empty sequence. -/
def pymin (l : List ℚ) : Except String ℚ :=
  match l with
  | [] => Except.error "ValueError: min() arg is an empty sequence"
  | x :: xs => Except.ok (xs.foldl min x)

/-- Python `max` over a list; raises `ValueError` on an empty sequence. -/
def pymax (l : List ℚ) : Except String ℚ :=
  match l with
  | [] => Except.error "ValueError: max() arg is an empty sequence"
  | x :: xs => Except.ok (xs.foldl max x)

/-- Source lines 18-31: the per-axis min/max of the world-space bounding-box
corners and the derived `(width, depth, height)` extents. -/
def bboxExtents (obj : SceneObject) : Except String (ℚ × ℚ × ℚ) :=
  match pymin (obj.bound_box_world.map Vec3.x) with
  | Except.error e => Except.error e
  | Except.ok min_x =>
  match pymax (obj.bound_box_world.map Vec3.x) with
  | Except.error e => Except.error e
  | Except.ok max_x =>
  match pymin (obj.bound_box_world.map Vec3.y) with
  | Except.error e => Except.error e
  | Except.ok min_y =>
  match pymax (obj.bound_box_world.map Vec3.y) with
  | Except.error e => Except.error e
  | Except.ok max_y =>
  match pymin (obj.bound_box_world.map Vec3.z) with
  | Except.error e => Except.error e
  | Except.ok min_z =>
  match pymax (obj.bound_box_world.map Vec3.z) with
  | Except.error e => Except.error e
  | Except.ok max_z =>
  Except.ok (max_x - min_x, max_y - min_y, max_z - min_z)

/-- Source line 34: `front_plane` is assigned this constant and never
reassigned. -/
def front_plane : String := "XY"

/-- Source lines 11-63, `scale_object_to_fit_camera`.  The default
`target_size` in the source is `2`; callers in this file pass it explicitly.
Python's `ZeroDivisionError` on `target_size / largest_dimension` is the
`Except.error` case. -/
def scale_object_to_fit_camera (obj : SceneObject) (target_size : ℚ) :
    Except String (SceneObject × List Event) :=
  match bboxExtents obj with
  | Except.error e => Except.error e
  | Except.ok (width, depth, height) =>
    let ev0 : List Event :=
      [Event.opModeSet "OBJECT",
       Event.printed ("Object bounding box dimensions - Width: " ++ toString width
         ++ ", Depth: " ++ toString depth ++ ", Height: " ++ toString height)]
    if front_plane = "XY" then
      let largest_dimension := max width depth
      if largest_dimension = 0 then
        Except.error "ZeroDivisionError: float division by zero"
      else
        let scale_factor := target_size / largest_dimension
        Except.ok ({ obj with scale := ⟨scale_factor, scale_factor, scale_factor⟩ },
          ev0 ++ [Event.printed ("Scaling the object to fit the front plane XY. Largest dimension: "
            ++ toString largest_dimension ++ ". Scale factor: " ++ toString scale_factor)])
    else if front_plane = "YZ" then
      let largest_dimension := max height depth
      if largest_dimension = 0 then
        Except.error "ZeroDivisionError: float division by zero"
      else
        let scale_factor := target_size / largest_dimension
        Except.ok ({ obj with scale := ⟨scale_factor, scale_factor, scale_factor⟩ },
          ev0 ++ [Event.printed ("Scaling the object to fit the front plane YZ. Largest dimension: "
            ++ toString largest_dimension ++ ". Scale factor: " ++ toString scale_factor)])
    else if front_plane = "ZX" then
      let largest_dimension := max width height
      if largest_dimension = 0 then
        Except.error "ZeroDivisionError: float division by zero"
      else
        let scale_factor := target_size / largest_dimension
        Except.ok ({ obj with scale := ⟨scale_factor, scale_factor, scale_factor⟩ },
          ev0 ++ [Event.printed ("Scaling the object to fit the front plane ZX. Largest dimension: "
            ++ toString largest_dimension ++ ". Scale factor: " ++ toString scale_factor)])
    else
      Except.ok (obj, ev0)

/-- The scale routine with only the `"XY"` branch, for comparison with
`scale_object_to_fit_camera` (claim C5). -/
def scale_object_to_fit_camera_xy_only (obj : SceneObject) (target_size : ℚ) :
    Except String (SceneObject × List Event) :=
  match bboxExtents obj with
  | Except.error e => Except.error e
  | Except.ok (width, depth, height) =>
    let ev0 : List Event :=
      [Event.opModeSet "OBJECT",
       Event.printed ("Object bounding box dimensions - Width: " ++ toString width
         ++ ", Depth: " ++ toString depth ++ ", Height: " ++ toString height)]
    let largest_dimension := max width depth
    if largest_dimension = 0 then
      Except.error "ZeroDivisionError: float division by zero"
    else
      let scale_factor := target_size / largest_dimension
      Except.ok ({ obj with scale := ⟨scale_factor, scale_factor, scale_factor⟩ },
        ev0 ++ [Event.printed ("Scaling the object to fit the front plane XY. Largest dimension: "
          ++ toString largest_dimension ++ ". Scale factor: " ++ toString scale_factor)])

/-- A concrete mesh object whose world-space corners span width 1, depth 2 and
height 3, used by the C1 witness. -/
def demoCube : SceneObject :=
  { id := 0, name := "Cube", type := "MESH",
    bound_box_world := [⟨0, 0, 0⟩, ⟨1, 2, 3⟩],
    scale := ⟨5, 5, 5⟩, location := ⟨0, 0, 0⟩, energy := 0, hide_render := false }

/-- A concrete degenerate mesh: all world-space corners coincide in x and y,
so width = depth = 0.  Used by the C9 witness. -/
def demoDegenerate : SceneObject :=
  { id := 0, name := "Degenerate", type := "MESH",
    bound_box_world := [⟨1, 1, 0⟩, ⟨1, 1, 4⟩],
    scale := ⟨1, 1, 1⟩, location := ⟨0, 0, 0⟩, energy := 0, hide_render := false }

/-- Model of `os.path.join(a, b)` for POSIX paths (the script only ever joins one
component at a time). -/
def os_path_join (a b : String) : String :=
  if b.startsWith "/" then b
  else if a = "" ∨ a.endsWith "/" then a ++ b
  else a ++ "/" ++ b

/-- Model of `os.path.dirname(p)` for POSIX paths: the part before the last slash,
with trailing slashes stripped unless the head consists only of slashes. -/
def os_path_dirname (p : String) : String :=
  let cs := p.data
  let head := (cs.reverse.dropWhile (fun c => c ≠ '/')).reverse
  if head.all (fun c => c = '/') then String.mk head
  else String.mk ((head.reverse.dropWhile (fun c => c = '/')).reverse)

/-- Whether `bpy.data.collections` holds a collection with this name
(Python `name in bpy.data.collections`). -/
def hasCollection (s : SceneState) (cname : String) : Bool :=
  s.collections.any (fun c => c.name = cname)

/-- The collection of the given name, if any (`bpy.data.collections[name]`). -/
def getCollection (s : SceneState) (cname : String) : Option SceneCollection :=
  s.collections.find? (fun c => c.name = cname)

/-- Whether the object is linked into the scene (member of some collection
under the scene root), i.e. appears in `bpy.context.scene.objects` /
`bpy.context.view_layer.objects`. -/
def objInScene (s : SceneState) (o : SceneObject) : Bool :=
  s.collections.any (fun c => c.objectIds.contains o.id)

/-- Link an object id into the collection of the given name
(`collection.objects.link(obj)`; collection names are unique in the host). -/
def linkToCollection (s : SceneState) (cname : String) (objId : Nat) : SceneState :=
  { s with collections := s.collections.map (fun c =>
      if c.name = cname then { c with objectIds := c.objectIds ++ [objId] } else c) }

/-- Source lines 104-106, `ensure_object_mode`:
`bpy.ops.object.mode_set(mode='OBJECT')`. -/
def ensure_object_mode (s : SceneState) : SceneState × List Event :=
  ({ s with mode := "OBJECT" }, [Event.opModeSet "OBJECT"])

/-- Source lines 144-153, `create_setup_collection`: create the "Setup"
collection and link it under the scene root, or reuse the existing one. -/
def create_setup_collection (s : SceneState) : SceneState × List Event :=
  if ¬ hasCollection s "Setup" then
    ({ s with collections := s.collections ++ [{ name := "Setup", objectIds := [] }] },
     [Event.printed "Created \x27Setup\x27 collection."])
  else
    (s, [Event.printed "\x27Setup\x27 collection already exists."])

/-- A freshly created camera object (`bpy.data.cameras.new` plus
`bpy.data.objects.new` plus the location assignment). -/
def cameraObj (i : Nat) : SceneObject :=
  { id := i, name := "RenderCamera", type := "CAMERA", bound_box_world := [],
    scale := ⟨1, 1, 1⟩, location := ⟨0, -4, 0⟩, energy := 0, hide_render := false }

/-- Source lines 155-165, `add_camera_to_collection`: create a new camera
object, link it to the given collection and position it.  Its
`rotation_euler` is set to the irrational `(radians(90), 0, 0)`, read by no
claim and not modelled.  Returns the new camera's id. -/
def add_camera_to_collection (cname : String) (s : SceneState) :
    SceneState × Nat × List Event :=
  let camId := s.nextId
  let cam := cameraObj camId
  let s1 := { s with objects := s.objects ++ [cam], nextId := s.nextId + 1 }
  (linkToCollection s1 cname camId, camId, [Event.printed "Adding camera..."])

/-- Source lines 167-169, `lights_exist`: any object of type 'LIGHT' among
`bpy.context.view_layer.objects`. -/
def lights_exist (s : SceneState) : Bool :=
  s.objects.any (fun o => objInScene s o && o.type = "LIGHT")

/-- A freshly created point light object (`bpy.data.lights.new` plus
`bpy.data.objects.new` plus the location assignment). -/
def pointLightObj (i : Nat) (lname : String) (e : ℚ) (loc : Vec3) : SceneObject :=
  { id := i, name := lname, type := "LIGHT", bound_box_world := [],
    scale := ⟨1, 1, 1⟩, location := loc, energy := e, hide_render := false }

/-- Create one point light object with the given name, energy and location,
linked to the named collection (the body of each of the three light blocks of
`add_3_point_lighting_to_collection`). -/
def mkPointLight (s : SceneState) (lname : String) (e : ℚ) (loc : Vec3)
    (cname : String) : SceneState × Nat :=
  let lId := s.nextId
  let l := pointLightObj lId lname e loc
  let s1 := { s with objects := s.objects ++ [l], nextId := s.nextId + 1 }
  (linkToCollection s1 cname lId, lId)

/-- Source lines 171-201, `add_3_point_lighting_to_collection`: if any light
already exists in the scene, skip and return `[]`; otherwise create the key,
fill and back lights and link them to the collection. -/
def add_3_point_lighting_to_collection (cname : String) (s : SceneState) :
    SceneState × List Nat × List Event :=
  if lights_exist s then
    (s, [], [Event.printed "Lights already exist in the scene. Skipping light setup."])
  else
    let (s1, keyId) := mkPointLight s "KeyLight" 3000 ⟨5, -5, 5⟩ cname
    let (s2, fillId) := mkPointLight s1 "FillLight" 1500 ⟨-5, -5, 5⟩ cname
    let (s3, backId) := mkPointLight s2 "BackLight" 900 ⟨0, 5, 5⟩ cname
    (s3, [keyId, fillId, backId], [Event.printed "Adding 3-point lighting..."])

/-- Source lines 203-209, `ensure_unique_in_collection`: for each object,
unlink it from every collection other than the given one (collections are
compared by identity in the source; names are unique in the host, so by
name here). -/
def ensure_unique_in_collection (cname : String) (objIds : List Nat)
    (s : SceneState) : SceneState × List Event :=
  ({ s with collections := objIds.foldl (fun cols i =>
      cols.map (fun c =>
        if c.name ≠ cname then { c with objectIds := c.objectIds.filter (fun j => j ≠ i) }
        else c)) s.collections },
   [Event.printed "Ensured objects are unique to the \x27Setup\x27 collection."])

/-- Source lines 65-74, `create_icons_folder`: the "Icons" directory beside
the source `.blend` file, created if missing.  `fsExists` is the host
filesystem's directory-existence predicate; the `filepath` argument is
`bpy.data.filepath`. -/
def create_icons_folder (filepath : String) (fsExists : String → Bool) :
    String × List Event :=
  let base_dir := os_path_dirname filepath
  let icons_dir := os_path_join base_dir "Icons"
  if ¬ fsExists icons_dir then
    (icons_dir, [Event.madeDir icons_dir,
      Event.printed ("Created \x27Icons\x27 folder at: " ++ icons_dir)])
  else
    (icons_dir, [])

/-- Source lines 76-83, `setup_render_settings`. -/
def setup_render_settings (resolution : Nat) (s : SceneState) :
    SceneState × List Event :=
  ({ s with render := { s.render with
      resolution_x := resolution, resolution_y := resolution,
      file_format := "PNG", color_mode := "RGBA", film_transparent := true } },
   [Event.printed ("Render settings updated for resolution: " ++ toString resolution
     ++ "x" ++ toString resolution)])

/-- Source lines 85-101, `render_object`: hide every scene object except
`obj` and the lights, set the render filepath, render. -/
def render_object (obj : SceneObject) (resolution : Nat) (output_dir : String)
    (s : SceneState) : SceneState × List Event :=
  let objs := s.objects.map (fun other =>
    if objInScene s other then
      (if other.id ≠ obj.id ∧ other.type ≠ "LIGHT" then { other with hide_render := true }
       else { other with hide_render := false })
    else other)
  let output_path := os_path_join output_dir (toString resolution ++ ".png")
  ({ s with objects := objs, render := { s.render with filepath := output_path } },
   [Event.printed ("Rendering " ++ obj.name ++ " at " ++ toString resolution
      ++ "x" ++ toString resolution ++ "..."),
    Event.renderedStill output_path,
    Event.printed ("Saved render to: " ++ output_path)])

/-- Source lines 108-142, `standardize_object`, acting on the object value.
The prints of the initial `rotation_euler` and `scale` reprs (lines 113-114)
are host float formatting read by no claim and are not recorded; selection
state (lines 117-118, 141) is host state read by no claim.
`transform_apply(scale=True)` bakes the scale into the mesh: world-space
geometry is unchanged and the scale becomes (1, 1, 1);
`transform_apply(rotation=True)` likewise leaves world-space geometry
unchanged.  `origin_set` and `location_clear` translate the object in world
space; the extents read by `scale_object_to_fit_camera` are
translation-invariant, so the world-space bounding-box snapshot is kept. -/
def standardize_object (obj : SceneObject) : Except String (SceneObject × List Event) :=
  let obj1 := { obj with scale := (⟨1, 1, 1⟩ : Vec3) }
  match scale_object_to_fit_camera obj1 2 with
  | Except.error e => Except.error e
  | Except.ok (obj2, evScale) =>
      Except.ok (obj2,
        [Event.printed ("Processing object: " ++ obj.name),
         Event.printed "Applying scale...", Event.opTransformApply true false,
         Event.printed "Applying rotation...", Event.opTransformApply false true,
         Event.printed "Setting origin to center of geometry...",
         Event.opOriginSet "ORIGIN_GEOMETRY" "BOUNDS",
         Event.printed "Clearing location...", Event.opLocationClear false,
         Event.printed "Scaling object to fit camera..."]
        ++ evScale
        ++ [Event.printed "----------------------------------------"])

/-- Source lines 211-236: the setup phase of `main` — create or reuse the
"Setup" collection, add the camera, add the lights, make the camera the
active scene camera (`bpy.context.view_layer.update()` on line 231 refreshes
host caches and has no modelled effect), and unlink camera and lights from
every other collection. -/
def setup_phase (s : SceneState) : SceneState × Nat × List Nat × List Event :=
  let s1 := (create_setup_collection s).1
  let ev1 := (create_setup_collection s).2
  let s2 := (add_camera_to_collection "Setup" s1).1
  let camId := (add_camera_to_collection "Setup" s1).2.1
  let ev2 := (add_camera_to_collection "Setup" s1).2.2
  let s3 := (add_3_point_lighting_to_collection "Setup" s2).1
  let lightIds := (add_3_point_lighting_to_collection "Setup" s2).2.1
  let ev3 := (add_3_point_lighting_to_collection "Setup" s2).2.2
  let s4 := { s3 with sceneCamera := some camId }
  let s5 := (ensure_unique_in_collection "Setup" (camId :: lightIds) s4).1
  let ev4 := (ensure_unique_in_collection "Setup" (camId :: lightIds) s4).2
  (s5, camId, lightIds,
   ev1 ++ ev2 ++ ev3 ++ ev4
     ++ [Event.printed "Setup complete! Camera and 3-point lighting added to the \x27Setup\x27 collection."])

/-- Source lines 244-247: the first loop of `main`, standardizing each mesh
object of the "Target" collection.  Iteration is over the collection's member
ids; a dangling id (impossible in the host, whose collections only reference
live objects) is skipped. -/
def standardize_loop : List Nat → SceneState → Except String (SceneState × List Event)
  | [], s => Except.ok (s, [])
  | objId :: rest, s =>
      match s.objects.find? (fun o => o.id = objId) with
      | none => standardize_loop rest s
      | some obj =>
          if obj.type = "MESH" then
            match standardize_object obj with
            | Except.error e => Except.error e
            | Except.ok (obj2, evs) =>
                match standardize_loop rest
                    { s with objects := s.objects.map (fun o => if o.id = objId then obj2 else o) } with
                | Except.error e => Except.error e
                | Except.ok (s2, evs2) => Except.ok (s2, evs ++ evs2)
          else standardize_loop rest s

/-- Source lines 254-258: the inner resolution loop of `main`'s render loop.
`icon_dir` is recomputed from `icons_dir` and the object name on every
iteration, as in the source. -/
def render_resolutions (obj : SceneObject) (icons_dir : String) :
    List Nat → SceneState → SceneState × List Event
  | [], s => (s, [])
  | res :: rest, s =>
      let icon_dir := os_path_join icons_dir obj.name
      let s1 := (setup_render_settings res s).1
      let ev1 := (setup_render_settings res s).2
      let s2 := (render_object obj res icon_dir s1).1
      let ev2 := (render_object obj res icon_dir s1).2
      let s3 := (render_resolutions obj icons_dir rest s2).1
      let ev3 := (render_resolutions obj icons_dir rest s2).2
      (s3, ev1 ++ ev2 ++ ev3)

/-- Source lines 249-260: the second loop of `main`, rendering each mesh
object of the "Target" collection at every resolution. -/
def render_loop (icons_dir : String) : List Nat → SceneState → SceneState × List Event
  | [], s => (s, [])
  | objId :: rest, s =>
      match s.objects.find? (fun o => o.id = objId) with
      | none => render_loop icons_dir rest s
      | some obj =>
          if obj.type = "MESH" then
            let s1 := (render_resolutions obj icons_dir RESOLUTIONS s).1
            let ev1 := (render_resolutions obj icons_dir RESOLUTIONS s).2
            let s2 := (render_loop icons_dir rest s1).1
            let ev2 := (render_loop icons_dir rest s1).2
            (s2, [Event.printed ("Processing object: " ++ obj.name)] ++ ev1
              ++ [Event.printed "----------------------------------------"] ++ ev2)
          else render_loop icons_dir rest s

/-- Source lines 211-262, `main` (named `script_main` here because `main` is
reserved for a program entry point).  `filepath` is `bpy.data.filepath` and
`fsExists` the host filesystem's existence predicate. -/
def script_main (filepath : String) (fsExists : String → Bool) (s0 : SceneState) :
    Except String (SceneState × List Event) :=
  let s := (ensure_object_mode s0).1
  let evMode := (ensure_object_mode s0).2
  if ¬ hasCollection s "Target" then
    Except.ok (s, evMode ++ [Event.printed "Collection \x27Target\x27 does not exist."])
  else
    let s1 := (setup_phase s).1
    let evSetup := (setup_phase s).2.2.2
    let icons_dir := (create_icons_folder filepath fsExists).1
    let evIcons := (create_icons_folder filepath fsExists).2
    let targetIds := ((getCollection s1 "Target").map SceneCollection.objectIds).getD []
    match standardize_loop targetIds s1 with
    | Except.error e => Except.error e
    | Except.ok (s2, evStd) =>
        let s3 := (render_loop icons_dir targetIds s2).1
        let evRender := (render_loop icons_dir targetIds s2).2
        Except.ok (s3, evMode ++ evSetup ++ evIcons ++ evStd ++ evRender
          ++ [Event.printed "Rendering complete! All icons saved in the \x27Icons\x27 folder."])

/-- The filepaths of the `render(write_still=True)` calls in a trace, in
order. -/
def renderPaths (evs : List Event) : List String :=
  evs.filterMap (fun e => match e with
    | Event.renderedStill p => some p
    | _ => none)

/-- How many `origin_set` operator calls a trace holds.  `standardize_object`
runs exactly one per object, so this counts standardizations. -/
def countOriginSet (evs : List Event) : Nat :=
  (evs.filter (fun e => match e with
    | Event.opOriginSet _ _ => true
    | _ => false)).length

/-- The output path the script computes for object name `objName` at
resolution `res`: `Icons/objName/res.png` under the directory of the source
scene file (the joins of `create_icons_folder`, `main`'s loop and
`render_object`). -/
def icon_output_path (filepath objName : String) (res : Nat) : String :=
  os_path_join (os_path_join (os_path_join (os_path_dirname filepath) "Icons") objName)
    (toString res ++ ".png")

/-- The identity-relevant signature of an object: id, name and type.  The
loops of `main` mutate only scale/bounding data and `hide_render`, so
signatures are preserved. -/
def objSig (o : SceneObject) : Nat × String × String := (o.id, o.name, o.type)

/-- The signatures of a list of objects, in order. -/
def objSigs (objs : List SceneObject) : List (Nat × String × String) := objs.map objSig

/-- The names of the mesh-typed objects among the given ids, in id-list
order (lookup as the loops of `main` do it). -/
def meshNamesOf (objs : List SceneObject) (ids : List Nat) : List String :=
  ids.filterMap (fun i =>
    match objs.find? (fun o => o.id = i) with
    | some o => if o.type = "MESH" then some o.name else none
    | none => none)

/-- The member ids of the "Target" collection. -/
def targetIdsOf (s : SceneState) : List Nat :=
  ((getCollection s "Target").map SceneCollection.objectIds).getD []

/-- The names of the mesh objects of the "Target" collection. -/
def targetMeshNames (s : SceneState) : List String :=
  meshNamesOf s.objects (targetIdsOf s)

/-- Host-guaranteed well-formedness of a scene: object ids are distinct,
and every id (of an object or linked into a collection) is below the
fresh-id supply. -/
structure WF (s : SceneState) : Prop where
  idsNodup : (s.objects.map SceneObject.id).Nodup
  idsBound : ∀ o ∈ s.objects, o.id < s.nextId
  collIdsBound : ∀ c ∈ s.collections, ∀ i ∈ c.objectIds, i < s.nextId

/-- Render settings before the script touches them. -/
def demoRenderSettings : RenderSettings :=
  { resolution_x := 1920, resolution_y := 1080, file_format := "JPEG",
    color_mode := "RGB", film_transparent := false, filepath := "" }

/-- A camera object as `add_camera_to_collection` creates it. -/
def demoCamera : SceneObject :=
  { id := 1, name := "RenderCamera", type := "CAMERA", bound_box_world := [],
    scale := ⟨1, 1, 1⟩, location := ⟨0, -4, 0⟩, energy := 0, hide_render := false }

/-- A key light as the script creates it. -/
def demoLight : SceneObject :=
  { id := 2, name := "KeyLight", type := "LIGHT", bound_box_world := [],
    scale := ⟨1, 1, 1⟩, location := ⟨5, -5, 5⟩, energy := 3000, hide_render := false }

/-- A scene with one target mesh, a camera and a light already set up. -/
def demoScene : SceneState :=
  { collections := [{ name := "Target", objectIds := [0] },
                    { name := "Setup", objectIds := [1, 2] }],
    objects := [demoCube, demoCamera, demoLight],
    render := demoRenderSettings, sceneCamera := some 1, mode := "OBJECT", nextId := 3 }

/-- A scene without a "Target" collection, for the C4 witness. -/
def demoSceneNoTarget : SceneState :=
  { collections := [{ name := "Props", objectIds := [0] }],
    objects := [demoCube], render := demoRenderSettings,
    sceneCamera := none, mode := "EDIT", nextId := 1 }

/-- An id is linked into some collection of the scene. -/
def idLinked (s : SceneState) (i : Nat) : Prop :=
  ∃ c ∈ s.collections, i ∈ c.objectIds

/-- The collection/light setup sequence of claim C3: `create_setup_collection`
followed by `add_3_point_lighting_to_collection` on the "Setup" collection,
as `main` runs them. -/
def setup_collection_and_lights (s : SceneState) : SceneState × List Event :=
  ((add_3_point_lighting_to_collection "Setup" (create_setup_collection s).1).1,
   (create_setup_collection s).2
     ++ (add_3_point_lighting_to_collection "Setup" (create_setup_collection s).1).2.2)

/-- How many collections named "Setup" the scene holds. -/
def numSetupCollections (s : SceneState) : Nat :=
  (s.collections.filter (fun c => c.name = "Setup")).length

/-- How many light-typed objects the scene holds. -/
def numLights (s : SceneState) : Nat :=
  (s.objects.filter (fun o => o.type = "LIGHT")).length

/-- The mesh-name of the found object only depends on its signature. -/
def meshNameOfSig : Option (Nat × String × String) → Option String
  | some t => if t.2.2 = "MESH" then some t.2.1 else none
  | none => none

/-- A non-mesh anchor object, member of "Target" in the demo scene below. -/
def demoEmptyObj : SceneObject :=
  { id := 0, name := "Anchor", type := "EMPTY", bound_box_world := [],
    scale := ⟨1, 1, 1⟩, location := ⟨0, 0, 0⟩, energy := 0, hide_render := false }

/-- A well-formed scene whose "Target" collection holds one non-mesh
object. -/
def demoSceneEmptyTarget : SceneState :=
  { collections := [{ name := "Target", objectIds := [0] }],
    objects := [demoEmptyObj], render := demoRenderSettings,
    sceneCamera := none, mode := "EDIT", nextId := 1 }

/-- The result of running the script on `demoSceneEmptyTarget`. -/
def demoRun : Except String (SceneState × List Event) :=
  script_main "proj/scene.blend" (fun _ => false) demoSceneEmptyTarget

/-- Final state of the demo run. -/
def demoRunState : SceneState := ((demoRun.toOption).map Prod.fst).getD demoSceneEmptyTarget

/-- Event trace of the demo run. -/
def demoRunEvents : List Event := ((demoRun.toOption).map Prod.snd).getD []

/-! ## Theorems -/

/-- C1: For every object whose world-space axis-aligned bounding box has width
`W` (x extent) and depth `D` (y extent) with `max W D ≠ 0`,
`scale_object_to_fit_camera` with `target_size = 2` sets the object's scale to
the uniform triple `(s, s, s)` with `s = 2 / max W D`, the same factor on all
three axes, and changes nothing else about the object. -/
theorem C1_uniform_scale_factor (obj : SceneObject) (W D H : ℚ)
    (hbb : bboxExtents obj = Except.ok (W, D, H)) (hmax : max W D ≠ 0) :
    ∃ evs, scale_object_to_fit_camera obj 2 =
      Except.ok ({ obj with scale := ⟨2 / max W D, 2 / max W D, 2 / max W D⟩ }, evs) := by
  unfold scale_object_to_fit_camera
  rw [hbb]
  simp only [if_pos (show front_plane = "XY" by decide), if_neg hmax]
  exact ⟨_, rfl⟩

/-- Witness for C1 at `demoCube`: width 1, depth 2, so the applied uniform
scale is 2 / max 1 2 = 1. -/
theorem C1_uniform_scale_factor_witness :
    ∃ evs, scale_object_to_fit_camera demoCube 2 =
      Except.ok ({ demoCube with scale := ⟨2 / max 1 2, 2 / max 1 2, 2 / max 1 2⟩ }, evs) :=
  C1_uniform_scale_factor demoCube 1 2 3
    (by simp [bboxExtents, pymin, pymax, demoCube]) (by norm_num)

/-- C5: The YZ and ZX branches of `scale_object_to_fit_camera` are unreachable
for every input: since `front_plane` is the constant `"XY"`, the function is
extensionally equal to the variant containing only the XY branch. -/
theorem C5_yz_zx_branches_dead (obj : SceneObject) (target_size : ℚ) :
    scale_object_to_fit_camera obj target_size =
      scale_object_to_fit_camera_xy_only obj target_size := by
  unfold scale_object_to_fit_camera scale_object_to_fit_camera_xy_only
  cases bboxExtents obj with
  | error e => rfl
  | ok w =>
    obtain ⟨width, depth, height⟩ := w
    simp only [if_pos (show front_plane = "XY" by decide)]

/-- C9: `scale_object_to_fit_camera` performs an unguarded division: for every
object whose world-space bounding box has width 0 and depth 0 (a degenerate
mesh), the call fails with a division-by-zero error instead of returning or
leaving the object's scale unchanged. -/
theorem C9_division_by_zero (obj : SceneObject) (H : ℚ)
    (hbb : bboxExtents obj = Except.ok (0, 0, H)) :
    scale_object_to_fit_camera obj 2 =
      Except.error "ZeroDivisionError: float division by zero" := by
  unfold scale_object_to_fit_camera
  rw [hbb]
  simp only [if_pos (show front_plane = "XY" by decide),
    if_pos (show max (0 : ℚ) 0 = 0 by norm_num)]

/-- Witness for C9 at `demoDegenerate`: the call raises a division-by-zero
error. -/
theorem C9_division_by_zero_witness :
    scale_object_to_fit_camera demoDegenerate 2 =
      Except.error "ZeroDivisionError: float division by zero" :=
  C9_division_by_zero demoDegenerate 4
    (by simp [bboxExtents, pymin, pymax, demoDegenerate])

/-- C6: after `setup_render_settings r` the scene's render settings have
`resolution_x = r` and `resolution_y = r` (a square image), file format PNG,
color mode RGBA and `film_transparent = true`; and a subsequent
`render_object` call leaves all of these unchanged, so every render the
script then performs is produced with a transparent RGBA background. -/
theorem C6_square_transparent_render_settings (r : Nat) (s : SceneState) :
    ((setup_render_settings r s).1.render.resolution_x = r ∧
     (setup_render_settings r s).1.render.resolution_y = r ∧
     (setup_render_settings r s).1.render.file_format = "PNG" ∧
     (setup_render_settings r s).1.render.color_mode = "RGBA" ∧
     (setup_render_settings r s).1.render.film_transparent = true) ∧
    ∀ obj res outDir,
      ((render_object obj res outDir (setup_render_settings r s).1).1.render.resolution_x = r ∧
       (render_object obj res outDir (setup_render_settings r s).1).1.render.resolution_y = r ∧
       (render_object obj res outDir (setup_render_settings r s).1).1.render.file_format = "PNG" ∧
       (render_object obj res outDir (setup_render_settings r s).1).1.render.color_mode = "RGBA" ∧
       (render_object obj res outDir (setup_render_settings r s).1).1.render.film_transparent = true) :=
  ⟨⟨rfl, rfl, rfl, rfl, rfl⟩, fun _ _ _ => ⟨rfl, rfl, rfl, rfl, rfl⟩⟩

/-- C4: if no collection named "Target" exists, `main` prints
"Collection 'Target' does not exist." and returns early: apart from the
initial mode switch the scene state is unchanged (no "Setup" collection, no
camera, no lights) and the trace holds no directory creation and no render. -/
theorem C4_missing_target_early_return (fp : String) (fs : String → Bool)
    (s0 : SceneState) (h : hasCollection s0 "Target" = false) :
    script_main fp fs s0 =
      Except.ok ({ s0 with mode := "OBJECT" },
        [Event.opModeSet "OBJECT",
         Event.printed "Collection \x27Target\x27 does not exist."]) := by
  have h2 : hasCollection { s0 with mode := "OBJECT" } "Target" = false := h
  unfold script_main ensure_object_mode
  simp [h2]

/-- Witness for C4 at a concrete scene with no "Target" collection. -/
theorem C4_missing_target_early_return_witness :
    script_main "proj/scene.blend" (fun _ => false) demoSceneNoTarget =
      Except.ok ({ demoSceneNoTarget with mode := "OBJECT" },
        [Event.opModeSet "OBJECT",
         Event.printed "Collection \x27Target\x27 does not exist."]) :=
  C4_missing_target_early_return "proj/scene.blend" (fun _ => false)
    demoSceneNoTarget (by decide)

/-- C10: `render_object obj res dir` sets `hide_render` on every scene
object: it ends up visible (`hide_render = false`) exactly when it is `obj`
itself (same identity) or its type is 'LIGHT'; every other scene object —
including the active render camera — is hidden.  Only the identity test
against `obj` and the 'LIGHT' type distinction determine visibility. -/
theorem C10_hide_render_policy (obj : SceneObject) (res : Nat) (outDir : String)
    (s : SceneState) :
    ∀ o2 ∈ (render_object obj res outDir s).1.objects,
      objInScene (render_object obj res outDir s).1 o2 = true →
      (o2.hide_render = false ↔ (o2.id = obj.id ∨ o2.type = "LIGHT")) := by
  intro o2 h2 hscene
  have hobjs : (render_object obj res outDir s).1.objects = s.objects.map (fun other =>
      if objInScene s other then
        (if other.id ≠ obj.id ∧ other.type ≠ "LIGHT" then { other with hide_render := true }
         else { other with hide_render := false })
      else other) := rfl
  rw [hobjs] at h2
  obtain ⟨o, ho, rfl⟩ := List.mem_map.mp h2
  by_cases hsc : objInScene s o = true
  · rw [if_pos hsc] at hscene ⊢
    by_cases hc : o.id ≠ obj.id ∧ o.type ≠ "LIGHT"
    · rw [if_pos hc]
      simp only [Bool.true_eq_false, false_iff]
      push_neg at hc ⊢
      exact hc
    · rw [if_neg hc]
      push_neg at hc
      simp only [true_iff]
      by_cases hid : o.id = obj.id
      · exact Or.inl hid
      · exact Or.inr (hc hid)
  · rw [if_neg hsc] at hscene
    have : objInScene s o = true := hscene
    exact absurd this hsc

/-- Witness for C10: in `demoScene`, rendering `demoCube` hides the active
camera (`demoCamera`, not a light and not the subject). -/
theorem C10_hide_render_policy_witness :
    (({ demoCamera with hide_render := true } : SceneObject).hide_render = false ↔
      (({ demoCamera with hide_render := true } : SceneObject).id = demoCube.id ∨
       ({ demoCamera with hide_render := true } : SceneObject).type = "LIGHT")) :=
  C10_hide_render_policy demoCube 64 "icons" demoScene
    { demoCamera with hide_render := true } (by decide) (by decide)

/-- Lemma: `linkToCollection` preserves the collection-name list. -/
theorem linkToCollection_names (s : SceneState) (cn : String) (i : Nat) :
    (linkToCollection s cn i).collections.map SceneCollection.name =
      s.collections.map SceneCollection.name := by
  unfold linkToCollection
  rw [List.map_map]
  apply List.map_congr_left
  intro c _
  by_cases h : c.name = cn <;> simp [h]

/-- Lemma: `linkToCollection` does not change the object list. -/
theorem linkToCollection_objects (s : SceneState) (cn : String) (i : Nat) :
    (linkToCollection s cn i).objects = s.objects := rfl

/-- Lemma: `hasCollection` only depends on the collection-name list. -/
theorem hasCollection_congr {s s' : SceneState} (cn : String)
    (h : s'.collections.map SceneCollection.name = s.collections.map SceneCollection.name) :
    hasCollection s' cn = hasCollection s cn := by
  have e : ∀ t : SceneState,
      (hasCollection t cn = true ↔ cn ∈ t.collections.map SceneCollection.name) := by
    intro t
    unfold hasCollection
    rw [List.any_eq_true]
    constructor
    · rintro ⟨c, hc, hp⟩
      exact List.mem_map.mpr ⟨c, hc, by simpa using hp⟩
    · intro hm
      obtain ⟨c, hc, heq⟩ := List.mem_map.mp hm
      exact ⟨c, hc, by simp [heq]⟩
  rw [Bool.eq_iff_iff, e, e, h]

/-- After `create_setup_collection` a "Setup" collection exists. -/
theorem hasSetup_after_create (s : SceneState) :
    hasCollection (create_setup_collection s).1 "Setup" = true := by
  unfold create_setup_collection
  by_cases h : hasCollection s "Setup" = true
  · rw [if_neg (by simp [h])]
    exact h
  · rw [if_pos (by simp [h])]
    simp [hasCollection]

/-- Reusing an existing "Setup" collection leaves the state unchanged. -/
theorem create_setup_collection_reuses (s : SceneState)
    (h : hasCollection s "Setup" = true) :
    (create_setup_collection s).1 = s := by
  unfold create_setup_collection
  simp [h]

/-- Skipping light creation leaves the state unchanged and returns `[]`. -/
theorem add_3_point_lighting_skips (cn : String) (s : SceneState)
    (h : lights_exist s = true) :
    (add_3_point_lighting_to_collection cn s).1 = s ∧
      (add_3_point_lighting_to_collection cn s).2.1 = [] := by
  unfold add_3_point_lighting_to_collection
  simp [h]

/-- Linking `i` into an existing collection makes it linked. -/
theorem idLinked_link_self (s : SceneState) (cn : String) (i : Nat)
    (h : hasCollection s cn = true) : idLinked (linkToCollection s cn i) i := by
  unfold hasCollection at h
  obtain ⟨c, hc, hname⟩ := List.any_eq_true.mp h
  refine ⟨{ c with objectIds := c.objectIds ++ [i] }, ?_, by simp⟩
  unfold linkToCollection
  exact List.mem_map.mpr ⟨c, hc, by rw [if_pos (by simpa using hname)]⟩

/-- Linking some id preserves linkedness of any id. -/
theorem idLinked_link_mono (s : SceneState) (cn : String) (i j : Nat)
    (h : idLinked s j) : idLinked (linkToCollection s cn i) j := by
  obtain ⟨c, hc, hj⟩ := h
  by_cases hn : c.name = cn
  · refine ⟨{ c with objectIds := c.objectIds ++ [i] }, ?_, ?_⟩
    · exact List.mem_map.mpr ⟨c, hc, by rw [if_pos hn]⟩
    · simp only [List.mem_append]
      exact Or.inl hj
  · exact ⟨c, List.mem_map.mpr ⟨c, hc, by rw [if_neg hn]⟩, hj⟩

/-- A linked light object forces `lights_exist`. -/
theorem lights_exist_of_linked_light (s : SceneState) (o : SceneObject)
    (hmem : o ∈ s.objects) (htype : o.type = "LIGHT")
    (hlink : idLinked s o.id) : lights_exist s = true := by
  unfold lights_exist
  apply List.any_eq_true.mpr
  refine ⟨o, hmem, ?_⟩
  obtain ⟨c, hc, hi⟩ := hlink
  have hsc : objInScene s o = true := by
    unfold objInScene
    exact List.any_eq_true.mpr ⟨c, hc, List.elem_iff.mpr hi⟩
  simp [hsc, htype]

/-- Lemma: `mkPointLight` preserves the collection-name list. -/
theorem mkPointLight_names (s : SceneState) (nm : String) (e : ℚ) (loc : Vec3)
    (cn : String) :
    (mkPointLight s nm e loc cn).1.collections.map SceneCollection.name =
      s.collections.map SceneCollection.name := by
  unfold mkPointLight
  exact linkToCollection_names _ cn _

/-- Lemma: `add_3_point_lighting_to_collection` preserves the collection-name
list. -/
theorem add_3_point_lighting_names (cn : String) (s : SceneState) :
    (add_3_point_lighting_to_collection cn s).1.collections.map SceneCollection.name =
      s.collections.map SceneCollection.name := by
  unfold add_3_point_lighting_to_collection
  by_cases h : lights_exist s = true
  · rw [if_pos h]
  · rw [if_neg h]
    rw [mkPointLight_names, mkPointLight_names, mkPointLight_names]

/-- After the setup sequence, lights exist in the scene. -/
theorem lights_exist_after_setup (s : SceneState) :
    lights_exist (setup_collection_and_lights s).1 = true := by
  unfold setup_collection_and_lights
  set s1 := (create_setup_collection s).1 with hs1
  by_cases hl : lights_exist s1 = true
  · unfold add_3_point_lighting_to_collection
    rw [if_pos hl]
    exact hl
  · unfold add_3_point_lighting_to_collection
    rw [if_neg hl]
    set u1 := (mkPointLight s1 "KeyLight" 3000 ⟨5, -5, 5⟩ "Setup").1 with hu1
    set u2 := (mkPointLight u1 "FillLight" 1500 ⟨-5, -5, 5⟩ "Setup").1 with hu2
    set u3 := (mkPointLight u2 "BackLight" 900 ⟨0, 5, 5⟩ "Setup").1 with hu3
    have hkey : ∃ o ∈ u3.objects, o.type = "LIGHT" ∧ o.id = s1.nextId := by
      refine ⟨pointLightObj s1.nextId "KeyLight" 3000 ⟨5, -5, 5⟩, ?_, rfl, rfl⟩
      have h1 : pointLightObj s1.nextId "KeyLight" 3000 ⟨5, -5, 5⟩ ∈ u1.objects := by
        rw [hu1]
        unfold mkPointLight
        rw [linkToCollection_objects]
        simp
      have h2 : ∀ o, o ∈ u1.objects → o ∈ u2.objects := by
        intro o ho
        rw [hu2]
        unfold mkPointLight
        rw [linkToCollection_objects]
        simp only [List.mem_append]
        exact Or.inl ho
      have h3 : ∀ o, o ∈ u2.objects → o ∈ u3.objects := by
        intro o ho
        rw [hu3]
        unfold mkPointLight
        rw [linkToCollection_objects]
        simp only [List.mem_append]
        exact Or.inl ho
      exact h3 _ (h2 _ h1)
    have hlink : idLinked u3 s1.nextId := by
      have l1 : idLinked u1 s1.nextId := by
        rw [hu1]
        unfold mkPointLight
        exact idLinked_link_self _ "Setup" _ (hasSetup_after_create s)
      have l2 : idLinked u2 s1.nextId := by
        rw [hu2]
        unfold mkPointLight
        exact idLinked_link_mono _ "Setup" _ _ l1
      rw [hu3]
      unfold mkPointLight
      exact idLinked_link_mono _ "Setup" _ _ l2
    obtain ⟨o, ho, htype, hid⟩ := hkey
    exact lights_exist_of_linked_light u3 o ho htype (hid ▸ hlink)

/-- Lemma: `numSetupCollections` only depends on the collection-name list. -/
theorem numSetup_congr {s s' : SceneState}
    (h : s'.collections.map SceneCollection.name = s.collections.map SceneCollection.name) :
    numSetupCollections s' = numSetupCollections s := by
  have e : ∀ t : SceneState, numSetupCollections t =
      ((t.collections.map SceneCollection.name).filter (fun n => n = "Setup")).length := by
    intro t
    unfold numSetupCollections
    rw [List.filter_map, List.length_map]
    rfl
  rw [e, e, h]

/-- Lemma: `numLights` only depends on the object list. -/
theorem numLights_congr {s s' : SceneState} (h : s'.objects = s.objects) :
    numLights s' = numLights s := by
  unfold numLights
  rw [h]

/-- Lemma: `create_setup_collection` does not change the object list. -/
theorem create_setup_collection_objects (s : SceneState) :
    (create_setup_collection s).1.objects = s.objects := by
  unfold create_setup_collection
  split <;> rfl

/-- The object list after `mkPointLight`. -/
theorem mkPointLight_objects (s : SceneState) (nm : String) (e : ℚ) (loc : Vec3)
    (cn : String) :
    (mkPointLight s nm e loc cn).1.objects =
      s.objects ++ [pointLightObj s.nextId nm e loc] := rfl

/-- C3: the camera/lighting setup is idempotent with respect to collections
and lights.  Running `create_setup_collection` followed by
`add_3_point_lighting_to_collection` twice in sequence leaves the state of
the first run unchanged; across both runs at most one "Setup" collection and
at most one set of three lights is created; a pre-existing "Setup"
collection is reused (the create step is a state no-op) and pre-existing
lights make light creation a skipped state no-op returning `[]`. -/
theorem C3_setup_idempotent (s : SceneState) :
    (setup_collection_and_lights (setup_collection_and_lights s).1).1 =
      (setup_collection_and_lights s).1 ∧
    numSetupCollections (setup_collection_and_lights (setup_collection_and_lights s).1).1 ≤
      numSetupCollections s + 1 ∧
    numLights (setup_collection_and_lights (setup_collection_and_lights s).1).1 ≤
      numLights s + 3 ∧
    (hasCollection s "Setup" = true → (create_setup_collection s).1 = s) ∧
    (lights_exist s = true →
      (add_3_point_lighting_to_collection "Setup" s).1 = s ∧
      (add_3_point_lighting_to_collection "Setup" s).2.1 = []) := by
  have hsetup1 : hasCollection (setup_collection_and_lights s).1 "Setup" = true := by
    show hasCollection (add_3_point_lighting_to_collection "Setup"
      (create_setup_collection s).1).1 "Setup" = true
    rw [hasCollection_congr _ (add_3_point_lighting_names _ _)]
    exact hasSetup_after_create s
  have hlights1 := lights_exist_after_setup s
  have hidem : (setup_collection_and_lights (setup_collection_and_lights s).1).1 =
      (setup_collection_and_lights s).1 := by
    show (add_3_point_lighting_to_collection "Setup"
      (create_setup_collection (setup_collection_and_lights s).1).1).1 =
      (setup_collection_and_lights s).1
    rw [create_setup_collection_reuses _ hsetup1]
    exact (add_3_point_lighting_skips "Setup" _ hlights1).1
  have hnum1 : numSetupCollections (setup_collection_and_lights s).1 ≤
      numSetupCollections s + 1 := by
    have e1 : numSetupCollections (setup_collection_and_lights s).1 =
        numSetupCollections (create_setup_collection s).1 :=
      numSetup_congr (add_3_point_lighting_names _ _)
    rw [e1]
    unfold create_setup_collection
    by_cases h : hasCollection s "Setup" = true
    · rw [if_neg (by simp [h])]
      exact Nat.le_succ _
    · rw [if_pos (by simp [h])]
      unfold numSetupCollections
      simp [List.filter_append]
  have hli1 : numLights (setup_collection_and_lights s).1 ≤ numLights s + 3 := by
    have hc : numLights (create_setup_collection s).1 = numLights s :=
      numLights_congr (create_setup_collection_objects s)
    show numLights (add_3_point_lighting_to_collection "Setup"
      (create_setup_collection s).1).1 ≤ numLights s + 3
    unfold add_3_point_lighting_to_collection
    by_cases h : lights_exist (create_setup_collection s).1 = true
    · rw [if_pos h]
      show numLights (create_setup_collection s).1 ≤ numLights s + 3
      omega
    · rw [if_neg h]
      have eobj : (mkPointLight (mkPointLight (mkPointLight (create_setup_collection s).1
          "KeyLight" 3000 ⟨5, -5, 5⟩ "Setup").1 "FillLight" 1500 ⟨-5, -5, 5⟩ "Setup").1
          "BackLight" 900 ⟨0, 5, 5⟩ "Setup").1.objects =
          ((((create_setup_collection s).1.objects
            ++ [pointLightObj (create_setup_collection s).1.nextId "KeyLight" 3000 ⟨5, -5, 5⟩])
            ++ [pointLightObj (mkPointLight (create_setup_collection s).1
                  "KeyLight" 3000 ⟨5, -5, 5⟩ "Setup").1.nextId "FillLight" 1500 ⟨-5, -5, 5⟩])
            ++ [pointLightObj (mkPointLight (mkPointLight (create_setup_collection s).1
                  "KeyLight" 3000 ⟨5, -5, 5⟩ "Setup").1 "FillLight" 1500 ⟨-5, -5, 5⟩ "Setup").1.nextId
                  "BackLight" 900 ⟨0, 5, 5⟩]) := by
        rw [mkPointLight_objects, mkPointLight_objects, mkPointLight_objects]
      show numLights (mkPointLight (mkPointLight (mkPointLight (create_setup_collection s).1
          "KeyLight" 3000 ⟨5, -5, 5⟩ "Setup").1 "FillLight" 1500 ⟨-5, -5, 5⟩ "Setup").1
          "BackLight" 900 ⟨0, 5, 5⟩ "Setup").1 ≤ numLights s + 3
      unfold numLights
      rw [eobj]
      simp only [List.filter_append, List.length_append]
      simp [pointLightObj]
      unfold numLights at hc
      omega
  refine ⟨hidem, ?_, ?_, create_setup_collection_reuses s, add_3_point_lighting_skips "Setup" s⟩
  · rw [hidem]
    exact hnum1
  · rw [hidem]
    exact hli1

/-- Witness for C3 at `demoScene`, which already has a "Setup" collection and
a scene light: both implications fire, the create step and the light step are
state no-ops, and the counters stay within bounds. -/
theorem C3_setup_idempotent_witness :
    (setup_collection_and_lights (setup_collection_and_lights demoScene).1).1 =
      (setup_collection_and_lights demoScene).1 ∧
    numSetupCollections (setup_collection_and_lights (setup_collection_and_lights demoScene).1).1 ≤
      numSetupCollections demoScene + 1 ∧
    numLights (setup_collection_and_lights (setup_collection_and_lights demoScene).1).1 ≤
      numLights demoScene + 3 ∧
    (create_setup_collection demoScene).1 = demoScene ∧
    ((add_3_point_lighting_to_collection "Setup" demoScene).1 = demoScene ∧
     (add_3_point_lighting_to_collection "Setup" demoScene).2.1 = []) := by
  obtain ⟨h1, h2, h3, h4, h5⟩ := C3_setup_idempotent demoScene
  exact ⟨h1, h2, h3, h4 (by decide), h5 (by decide)⟩

/-- The fold of per-id unlinks in `ensure_unique_in_collection` equals one
map that filters all the given ids out of every other-named collection. -/
theorem unlink_foldl (cn : String) (ids : List Nat) (cols : List SceneCollection) :
    ids.foldl (fun cs i => cs.map (fun c =>
        if c.name ≠ cn then { c with objectIds := c.objectIds.filter (fun j => j ≠ i) }
        else c)) cols
    = cols.map (fun c =>
        if c.name ≠ cn then { c with objectIds := c.objectIds.filter (fun j => j ∉ ids) }
        else c) := by
  induction ids generalizing cols with
  | nil =>
    simp only [List.foldl_nil]
    have h : ∀ c ∈ cols,
        (if c.name ≠ cn then { c with objectIds := c.objectIds.filter (fun j => j ∉ ([] : List Nat)) }
         else c) = c := by
      intro c _
      by_cases hn : c.name ≠ cn
      · rw [if_pos hn]
        simp
      · rw [if_neg hn]
    rw [List.map_congr_left h]
    simp
  | cons i rest ih =>
    rw [List.foldl_cons, ih, List.map_map]
    apply List.map_congr_left
    intro c _
    by_cases hn : c.name ≠ cn
    · simp only [Function.comp_apply, if_pos hn]
      have h : ∀ l : List Nat,
          (l.filter (fun j => j ≠ i)).filter (fun j => j ∉ rest) =
            l.filter (fun j => j ∉ i :: rest) := by
        intro l
        rw [List.filter_filter]
        apply List.filter_congr
        intro j _
        by_cases h1 : j = i <;> by_cases h2 : j ∈ rest <;> simp [h1, h2]
      rw [h]
    · simp only [Function.comp_apply, if_neg hn]

/-- Lemma: `ensure_unique_in_collection`, as one map over the collections. -/
theorem ensure_unique_collections (cn : String) (ids : List Nat) (s : SceneState) :
    (ensure_unique_in_collection cn ids s).1.collections =
      s.collections.map (fun c =>
        if c.name ≠ cn then { c with objectIds := c.objectIds.filter (fun j => j ∉ ids) }
        else c) := by
  show (ids.foldl _ s.collections) = _
  exact unlink_foldl cn ids s.collections

/-- Linking an id makes it a member of every collection of that name. -/
theorem linkToCollection_mem_self (s : SceneState) (cn : String) (i : Nat) :
    ∀ c ∈ (linkToCollection s cn i).collections, c.name = cn → i ∈ c.objectIds := by
  intro c hc hname
  obtain ⟨c0, hc0, rfl⟩ := List.mem_map.mp hc
  by_cases hn : c0.name = cn
  · rw [if_pos hn]
    simp
  · rw [if_neg hn] at hname ⊢
    exact absurd hname hn

/-- Linking preserves membership of any id in every collection of a given
name. -/
theorem linkToCollection_mem_mono (s : SceneState) (cn cn' : String) (i j : Nat)
    (h : ∀ c ∈ s.collections, c.name = cn' → j ∈ c.objectIds) :
    ∀ c ∈ (linkToCollection s cn i).collections, c.name = cn' → j ∈ c.objectIds := by
  intro c hc hname
  obtain ⟨c0, hc0, rfl⟩ := List.mem_map.mp hc
  by_cases hn : c0.name = cn
  · rw [if_pos hn] at hname ⊢
    simp only [List.mem_append]
    exact Or.inl (h c0 hc0 hname)
  · rw [if_neg hn] at hname ⊢
    exact h c0 hc0 hname

/-- Lemma: `add_3_point_lighting_to_collection` preserves membership of any id in
every collection of a given name. -/
theorem add_3_point_lighting_mem_mono (cn cn' : String) (j : Nat) (s : SceneState)
    (h : ∀ c ∈ s.collections, c.name = cn' → j ∈ c.objectIds) :
    ∀ c ∈ (add_3_point_lighting_to_collection cn s).1.collections,
      c.name = cn' → j ∈ c.objectIds := by
  unfold add_3_point_lighting_to_collection
  by_cases hl : lights_exist s = true
  · rw [if_pos hl]
    exact h
  · rw [if_neg hl]
    apply linkToCollection_mem_mono
    apply linkToCollection_mem_mono
    apply linkToCollection_mem_mono
    exact h

/-- Lemma: `ensure_unique_in_collection` preserves the collection-name list. -/
theorem ensure_unique_names (cn : String) (ids : List Nat) (s : SceneState) :
    (ensure_unique_in_collection cn ids s).1.collections.map SceneCollection.name =
      s.collections.map SceneCollection.name := by
  rw [ensure_unique_collections, List.map_map]
  apply List.map_congr_left
  intro c _
  by_cases hn : c.name ≠ cn
  · simp only [Function.comp_apply, if_pos hn]
  · simp only [Function.comp_apply, if_neg hn]

/-- Lemma: `add_camera_to_collection` preserves the collection-name list. -/
theorem add_camera_names (cn : String) (s : SceneState) :
    (add_camera_to_collection cn s).1.collections.map SceneCollection.name =
      s.collections.map SceneCollection.name := by
  unfold add_camera_to_collection
  exact linkToCollection_names _ cn _

/-- Every id returned by `add_3_point_lighting_to_collection` is linked into
every collection of the given name. -/
theorem add_3_point_lighting_created_linked (cn : String) (s : SceneState) :
    ∀ i ∈ (add_3_point_lighting_to_collection cn s).2.1,
      ∀ c ∈ (add_3_point_lighting_to_collection cn s).1.collections,
        c.name = cn → i ∈ c.objectIds := by
  unfold add_3_point_lighting_to_collection
  by_cases hl : lights_exist s = true
  · rw [if_pos hl]
    intro i hi
    simp at hi
  · rw [if_neg hl]
    unfold mkPointLight
    intro i hi
    simp only [List.mem_cons, List.not_mem_nil, or_false] at hi
    rcases hi with rfl | rfl | rfl
    · apply linkToCollection_mem_mono
      apply linkToCollection_mem_mono
      exact linkToCollection_mem_self _ cn _
    · apply linkToCollection_mem_mono
      exact linkToCollection_mem_self _ cn _
    · exact linkToCollection_mem_self _ cn _

/-- C8: after `main`'s setup phase completes, the rig is isolated in the
"Setup" collection: a "Setup" collection exists, and the created camera and
each light created by the setup are members of exactly the collections named
"Setup" — `ensure_unique_in_collection` unlinks them from every other
collection, keeping the rig separate from the render subjects. -/
theorem C8_rig_isolated_in_setup (s : SceneState) :
    hasCollection (setup_phase s).1 "Setup" = true ∧
    (∀ c ∈ (setup_phase s).1.collections,
      ((setup_phase s).2.1 ∈ c.objectIds ↔ c.name = "Setup")) ∧
    (∀ i ∈ (setup_phase s).2.2.1, ∀ c ∈ (setup_phase s).1.collections,
      (i ∈ c.objectIds ↔ c.name = "Setup")) := by
  set s1 := (create_setup_collection s).1 with hs1
  set s2 := (add_camera_to_collection "Setup" s1).1 with hs2
  set camId := (add_camera_to_collection "Setup" s1).2.1 with hcam
  set s3 := (add_3_point_lighting_to_collection "Setup" s2).1 with hs3
  set lightIds := (add_3_point_lighting_to_collection "Setup" s2).2.1 with hli
  have hproj1 : (setup_phase s).1 =
      (ensure_unique_in_collection "Setup" (camId :: lightIds)
        { s3 with sceneCamera := some camId }).1 := rfl
  have hproj2 : (setup_phase s).2.1 = camId := rfl
  have hproj3 : (setup_phase s).2.2.1 = lightIds := rfl
  rw [hproj1, hproj2, hproj3]
  have hset2 : hasCollection s2 "Setup" = true := by
    rw [hs2, hasCollection_congr _ (add_camera_names "Setup" s1)]
    exact hasSetup_after_create s
  have hset3 : hasCollection s3 "Setup" = true := by
    rw [hs3, hasCollection_congr _ (add_3_point_lighting_names "Setup" s2)]
    exact hset2
  have hcamlink2 : ∀ c ∈ s2.collections, c.name = "Setup" → camId ∈ c.objectIds := by
    rw [hs2, hcam]
    unfold add_camera_to_collection
    exact linkToCollection_mem_self _ "Setup" _
  have hcamlink3 : ∀ c ∈ s3.collections, c.name = "Setup" → camId ∈ c.objectIds := by
    rw [hs3]
    exact add_3_point_lighting_mem_mono "Setup" "Setup" camId s2 hcamlink2
  have hlightlink3 : ∀ i ∈ lightIds, ∀ c ∈ s3.collections,
      c.name = "Setup" → i ∈ c.objectIds := by
    rw [hli, hs3]
    exact add_3_point_lighting_created_linked "Setup" s2
  refine ⟨?_, ?_, ?_⟩
  · rw [hasCollection_congr _ (ensure_unique_names _ _ _)]
    exact hset3
  · rw [ensure_unique_collections]
    intro c hc
    obtain ⟨c0, hc0, rfl⟩ := List.mem_map.mp hc
    by_cases hn : c0.name ≠ "Setup"
    · rw [if_pos hn]
      constructor
      · intro hmem
        rw [List.mem_filter] at hmem
        simp at hmem
      · intro hname
        exact absurd hname hn
    · rw [if_neg hn]
      push_neg at hn
      constructor
      · intro _
        exact hn
      · intro _
        exact hcamlink3 c0 hc0 hn
  · rw [ensure_unique_collections]
    intro i hi c hc
    obtain ⟨c0, hc0, rfl⟩ := List.mem_map.mp hc
    by_cases hn : c0.name ≠ "Setup"
    · rw [if_pos hn]
      constructor
      · intro hmem
        rw [List.mem_filter] at hmem
        have hin : i ∈ camId :: lightIds := List.mem_cons_of_mem _ hi
        simp [hin] at hmem
      · intro hname
        exact absurd hname hn
    · rw [if_neg hn]
      push_neg at hn
      constructor
      · intro _
        exact hn
      · intro _
        exact hlightlink3 i hi c0 hc0 hn

/-- Witness for C8 at a concrete scene with no pre-existing "Setup"
collection or lights: the camera (id 1) ends up only in "Setup"; the light
id 2 is in "Setup" and not in the other collection. -/
theorem C8_rig_isolated_in_setup_witness :
    hasCollection (setup_phase demoSceneNoTarget).1 "Setup" = true ∧
    ((1 ∈ ({ name := "Setup", objectIds := [1, 2, 3, 4] } : SceneCollection).objectIds) ↔
      ({ name := "Setup", objectIds := [1, 2, 3, 4] } : SceneCollection).name = "Setup") ∧
    ((2 ∈ ({ name := "Props", objectIds := [0] } : SceneCollection).objectIds) ↔
      ({ name := "Props", objectIds := [0] } : SceneCollection).name = "Setup") := by
  obtain ⟨h1, h2, h3⟩ := C8_rig_isolated_in_setup demoSceneNoTarget
  exact ⟨h1, h2 _ (by decide), h3 2 (by decide) _ (by decide)⟩

/-- Lemma: `renderPaths` distributes over append. -/
theorem renderPaths_append (a b : List Event) :
    renderPaths (a ++ b) = renderPaths a ++ renderPaths b := by
  unfold renderPaths
  exact List.filterMap_append a b _

/-- Lemma: `countOriginSet` is additive over append. -/
theorem countOriginSet_append (a b : List Event) :
    countOriginSet (a ++ b) = countOriginSet a + countOriginSet b := by
  unfold countOriginSet
  rw [List.filter_append, List.length_append]

/-- Mapping a signature-preserving function preserves the signature list. -/
theorem objSigs_map_preserving (l : List SceneObject) (f : SceneObject → SceneObject)
    (h : ∀ o, objSig (f o) = objSig o) : objSigs (l.map f) = objSigs l := by
  unfold objSigs
  rw [List.map_map]
  exact List.map_congr_left (fun o _ => h o)

/-- Lemma: `find?` by id only looks at signatures. -/
theorem find?_sig_congr (l l' : List SceneObject) (h : objSigs l = objSigs l') (i : Nat) :
    Option.map objSig (l.find? (fun o => o.id = i)) =
      Option.map objSig (l'.find? (fun o => o.id = i)) := by
  induction l generalizing l' with
  | nil =>
    have : l' = [] := by
      unfold objSigs at h
      exact List.map_eq_nil_iff.mp h.symm
    rw [this]
  | cons o t ih =>
    cases l' with
    | nil =>
      exact absurd h (by simp [objSigs])
    | cons o' t' =>
      unfold objSigs at h
      simp only [List.map_cons, List.cons.injEq] at h
      obtain ⟨h1, h2⟩ := h
      have hid : o.id = o'.id := congrArg Prod.fst h1
      by_cases hp : o.id = i
      · rw [List.find?_cons_of_pos _ (by simp [hp]),
          List.find?_cons_of_pos _ (by simp [hid ▸ hp])]
        simp [h1]
      · rw [List.find?_cons_of_neg _ (by simp [hp]),
          List.find?_cons_of_neg _ (by simp [hid ▸ hp])]
        exact ih t' h2

/-- Lemma: `meshNamesOf` factors through signatures. -/
theorem meshNamesOf_eq_sig (objs : List SceneObject) (ids : List Nat) :
    meshNamesOf objs ids = ids.filterMap (fun i =>
      meshNameOfSig (Option.map objSig (objs.find? (fun o => o.id = i)))) := by
  unfold meshNamesOf
  apply List.filterMap_congr
  intro i _
  cases objs.find? (fun o => o.id = i) with
  | none => rfl
  | some o => rfl

/-- Lemma: `meshNamesOf` is invariant under signature-preserving object-list
changes. -/
theorem meshNamesOf_congr {l l' : List SceneObject} (h : objSigs l = objSigs l')
    (ids : List Nat) : meshNamesOf l ids = meshNamesOf l' ids := by
  rw [meshNamesOf_eq_sig, meshNamesOf_eq_sig]
  apply List.filterMap_congr
  intro i _
  rw [find?_sig_congr l l' h i]

/-- Lemma: `find?` skips an appended suffix on which the predicate fails. -/
theorem find?_append_false {α} (p : α → Bool) (l₁ l₂ : List α)
    (h : ∀ a ∈ l₂, p a = false) : (l₁ ++ l₂).find? p = l₁.find? p := by
  induction l₁ with
  | nil =>
    simp only [List.nil_append, List.find?_nil]
    exact List.find?_eq_none.mpr (fun a ha => by simp [h a ha])
  | cons a t ih =>
    by_cases hp : p a = true
    · rw [List.cons_append, List.find?_cons_of_pos _ hp, List.find?_cons_of_pos _ hp]
    · rw [List.cons_append, List.find?_cons_of_neg _ (by simp [hp]),
        List.find?_cons_of_neg _ (by simp [hp])]
      exact ih

/-- Replacing the (unique) object with id `i` by a signature-equal object
preserves signatures. -/
theorem objSigs_update (l : List SceneObject) (i : Nat) (obj obj2 : SceneObject)
    (hnd : (l.map SceneObject.id).Nodup)
    (hf : l.find? (fun o => o.id = i) = some obj)
    (hsig : objSig obj2 = objSig obj) :
    objSigs (l.map (fun o => if o.id = i then obj2 else o)) = objSigs l := by
  induction l with
  | nil => simp at hf
  | cons o t ih =>
    simp only [List.map_cons, List.nodup_cons] at hnd
    obtain ⟨hno, hndt⟩ := hnd
    by_cases hp : o.id = i
    · rw [List.find?_cons_of_pos _ (by simp [hp])] at hf
      have ho : obj = o := by
        injection hf with hf
        exact hf.symm
      subst ho
      have htail : t.map (fun o => if o.id = i then obj2 else o) = t := by
        have h2 : t.map (fun o => if o.id = i then obj2 else o) = t.map id := by
          apply List.map_congr_left
          intro o' ho'
          rw [if_neg]
          · rfl
          · intro hcontra
            apply hno
            rw [hp, ← hcontra]
            exact List.mem_map.mpr ⟨o', ho', rfl⟩
        rw [h2, List.map_id]
      simp only [List.map_cons, if_pos hp, htail]
      unfold objSigs
      simp only [List.map_cons, List.cons.injEq]
      exact ⟨hsig, trivial⟩
    · rw [List.find?_cons_of_neg _ (by simp [hp])] at hf
      have := ih hndt hf
      simp only [List.map_cons, if_neg hp]
      unfold objSigs at this ⊢
      simp only [List.map_cons, List.cons.injEq]
      exact ⟨trivial, this⟩

/-- A successful scale call preserves id/name/type and emits neither renders
nor origin-set operator calls. -/
theorem scale_object_ok_facts (obj : SceneObject) (t : ℚ) (o2 : SceneObject)
    (evs : List Event) (h : scale_object_to_fit_camera obj t = Except.ok (o2, evs)) :
    objSig o2 = objSig obj ∧ renderPaths evs = [] ∧ countOriginSet evs = 0 := by
  unfold scale_object_to_fit_camera at h
  cases hbb : bboxExtents obj with
  | error e =>
    rw [hbb] at h
    simp at h
  | ok w =>
    obtain ⟨width, depth, height⟩ := w
    rw [hbb] at h
    simp only [if_pos (show front_plane = "XY" by decide)] at h
    by_cases hz : max width depth = 0
    · rw [if_pos hz] at h
      simp at h
    · rw [if_neg hz] at h
      simp only [Except.ok.injEq, Prod.mk.injEq] at h
      obtain ⟨ho, he⟩ := h
      subst ho he
      exact ⟨rfl, rfl, rfl⟩

/-- A successful standardization preserves id/name/type, emits no render and
exactly one origin-set operator call. -/
theorem standardize_object_ok_facts (obj o2 : SceneObject) (evs : List Event)
    (h : standardize_object obj = Except.ok (o2, evs)) :
    objSig o2 = objSig obj ∧ renderPaths evs = [] ∧ countOriginSet evs = 1 := by
  unfold standardize_object at h
  cases hs : scale_object_to_fit_camera { obj with scale := (⟨1, 1, 1⟩ : Vec3) } 2 with
  | error e =>
    simp only [hs] at h
    exact absurd h (by simp)
  | ok p =>
    obtain ⟨o3, ev5⟩ := p
    simp only [hs, Except.ok.injEq, Prod.mk.injEq] at h
    obtain ⟨ho, he⟩ := h
    subst ho he
    obtain ⟨hsig, hrp, hco⟩ := scale_object_ok_facts _ _ _ _ hs
    refine ⟨hsig, ?_, ?_⟩
    · rw [renderPaths_append, renderPaths_append, hrp]
      rfl
    · rw [countOriginSet_append, countOriginSet_append, hco]
      rfl

/-- Equal signatures give equal id lists. -/
theorem ids_of_objSigs {l l' : List SceneObject} (h : objSigs l = objSigs l') :
    l.map SceneObject.id = l'.map SceneObject.id := by
  have h2 := congrArg (List.map Prod.fst) h
  simpa [objSigs, objSig, List.map_map, Function.comp] using h2

/-- The first loop of `main`: on success it preserves object signatures,
collections and render settings, emits no render, and emits exactly one
origin-set call per mesh among the ids. -/
theorem standardize_loop_facts (ids : List Nat) (s s' : SceneState) (evs : List Event)
    (hnd : (s.objects.map SceneObject.id).Nodup)
    (h : standardize_loop ids s = Except.ok (s', evs)) :
    objSigs s'.objects = objSigs s.objects ∧ s'.collections = s.collections ∧
    renderPaths evs = [] ∧
    countOriginSet evs = (meshNamesOf s.objects ids).length := by
  induction ids generalizing s evs with
  | nil =>
    unfold standardize_loop at h
    simp only [Except.ok.injEq, Prod.mk.injEq] at h
    obtain ⟨h1, h2⟩ := h
    subst h1 h2
    exact ⟨rfl, rfl, rfl, rfl⟩
  | cons i rest ih =>
    unfold standardize_loop at h
    cases hf : s.objects.find? (fun o => o.id = i) with
    | none =>
      simp only [hf] at h
      obtain ⟨e1, e2, e3, e4⟩ := ih s evs hnd h
      refine ⟨e1, e2, e3, ?_⟩
      rw [e4]
      unfold meshNamesOf
      rw [List.filterMap_cons]
      simp [hf]
    | some obj =>
      simp only [hf] at h
      by_cases ht : obj.type = "MESH"
      · simp only [if_pos ht] at h
        cases hstd : standardize_object obj with
        | error e =>
          simp only [hstd] at h
          exact absurd h (by simp)
        | ok p =>
          obtain ⟨obj2, ev1⟩ := p
          simp only [hstd] at h
          cases hrec : standardize_loop rest
              { s with objects := s.objects.map (fun o => if o.id = i then obj2 else o) } with
          | error e =>
            simp only [hrec] at h
            exact absurd h (by simp)
          | ok q =>
            obtain ⟨s2, ev2⟩ := q
            simp only [hrec, Except.ok.injEq, Prod.mk.injEq] at h
            obtain ⟨hs2, hev⟩ := h
            subst hs2 hev
            obtain ⟨hsig1, hrp1, hco1⟩ := standardize_object_ok_facts obj obj2 ev1 hstd
            have hmidsig : objSigs (s.objects.map (fun o => if o.id = i then obj2 else o)) =
                objSigs s.objects :=
              objSigs_update s.objects i obj obj2 hnd hf hsig1
            have hndmid : ((s.objects.map (fun o => if o.id = i then obj2 else o)).map
                SceneObject.id).Nodup := by
              rw [ids_of_objSigs hmidsig]
              exact hnd
            obtain ⟨e1, e2, e3, e4⟩ := ih _ ev2 hndmid hrec
            have hcons : meshNamesOf s.objects (i :: rest) =
                obj.name :: meshNamesOf s.objects rest := by
              unfold meshNamesOf
              rw [List.filterMap_cons]
              simp [hf, ht]
            refine ⟨e1.trans hmidsig, e2, ?_, ?_⟩
            · rw [renderPaths_append, hrp1, e3]
              rfl
            · rw [countOriginSet_append, hco1, e4, hcons,
                meshNamesOf_congr hmidsig rest]
              simp [List.length_cons]
              omega
      · simp only [if_neg ht] at h
        obtain ⟨e1, e2, e3, e4⟩ := ih s evs hnd h
        refine ⟨e1, e2, e3, ?_⟩
        rw [e4]
        unfold meshNamesOf
        rw [List.filterMap_cons]
        simp [hf, ht]

/-- Lemma: `render_object` preserves signatures and collections. -/
theorem render_object_sig_preserving (obj : SceneObject) (res : Nat) (d : String)
    (s : SceneState) :
    objSigs (render_object obj res d s).1.objects = objSigs s.objects ∧
    (render_object obj res d s).1.collections = s.collections := by
  constructor
  · have e : (render_object obj res d s).1.objects = s.objects.map (fun other =>
        if objInScene s other then
          (if other.id ≠ obj.id ∧ other.type ≠ "LIGHT" then { other with hide_render := true }
           else { other with hide_render := false })
        else other) := rfl
    rw [e]
    apply objSigs_map_preserving
    intro o
    by_cases h1 : objInScene s o = true
    · rw [if_pos h1]
      by_cases h2 : o.id ≠ obj.id ∧ o.type ≠ "LIGHT"
      · rw [if_pos h2]
        rfl
      · rw [if_neg h2]
        rfl
    · rw [if_neg h1]
  · rfl

/-- The inner resolution loop: it preserves signatures and collections,
renders exactly once per resolution in list order to
`icons_dir/obj.name/res.png`, and performs no origin-set call. -/
theorem render_resolutions_facts (obj : SceneObject) (icons_dir : String)
    (rs : List Nat) (s : SceneState) :
    objSigs (render_resolutions obj icons_dir rs s).1.objects = objSigs s.objects ∧
    (render_resolutions obj icons_dir rs s).1.collections = s.collections ∧
    renderPaths (render_resolutions obj icons_dir rs s).2 =
      rs.map (fun r => os_path_join (os_path_join icons_dir obj.name)
        (toString r ++ ".png")) ∧
    countOriginSet (render_resolutions obj icons_dir rs s).2 = 0 := by
  induction rs generalizing s with
  | nil => exact ⟨rfl, rfl, rfl, rfl⟩
  | cons r rest ih =>
    have hproj1 : (render_resolutions obj icons_dir (r :: rest) s).1 =
        (render_resolutions obj icons_dir rest
          (render_object obj r (os_path_join icons_dir obj.name)
            (setup_render_settings r s).1).1).1 := rfl
    have hproj2 : (render_resolutions obj icons_dir (r :: rest) s).2 =
        (setup_render_settings r s).2
          ++ (render_object obj r (os_path_join icons_dir obj.name)
              (setup_render_settings r s).1).2
          ++ (render_resolutions obj icons_dir rest
              (render_object obj r (os_path_join icons_dir obj.name)
                (setup_render_settings r s).1).1).2 := rfl
    obtain ⟨f1, f2, f3, f4⟩ := ih (render_object obj r (os_path_join icons_dir obj.name)
      (setup_render_settings r s).1).1
    obtain ⟨g1, g2⟩ := render_object_sig_preserving obj r (os_path_join icons_dir obj.name)
      (setup_render_settings r s).1
    rw [hproj1, hproj2]
    refine ⟨?_, ?_, ?_, ?_⟩
    · rw [f1, g1]
      rfl
    · rw [f2, g2]
      rfl
    · rw [renderPaths_append, renderPaths_append, f3]
      rfl
    · rw [countOriginSet_append, countOriginSet_append, f4]
      rfl

/-- The second loop of `main`: it preserves signatures and collections,
renders each mesh among the ids once per resolution in `RESOLUTIONS` order,
and performs no origin-set call. -/
theorem render_loop_facts (icons_dir : String) (ids : List Nat) (s : SceneState) :
    objSigs (render_loop icons_dir ids s).1.objects = objSigs s.objects ∧
    (render_loop icons_dir ids s).1.collections = s.collections ∧
    renderPaths (render_loop icons_dir ids s).2 =
      (meshNamesOf s.objects ids).flatMap (fun n => RESOLUTIONS.map (fun r =>
        os_path_join (os_path_join icons_dir n) (toString r ++ ".png"))) ∧
    countOriginSet (render_loop icons_dir ids s).2 = 0 := by
  induction ids generalizing s with
  | nil => exact ⟨rfl, rfl, rfl, rfl⟩
  | cons i rest ih =>
    have hloop : render_loop icons_dir (i :: rest) s =
        match s.objects.find? (fun o => o.id = i) with
        | none => render_loop icons_dir rest s
        | some obj =>
            if obj.type = "MESH" then
              ((render_loop icons_dir rest
                  (render_resolutions obj icons_dir RESOLUTIONS s).1).1,
               [Event.printed ("Processing object: " ++ obj.name)]
                 ++ (render_resolutions obj icons_dir RESOLUTIONS s).2
                 ++ [Event.printed "----------------------------------------"]
                 ++ (render_loop icons_dir rest
                     (render_resolutions obj icons_dir RESOLUTIONS s).1).2)
            else render_loop icons_dir rest s := rfl
    cases hf : s.objects.find? (fun o => o.id = i) with
    | none =>
      rw [hloop]
      simp only [hf]
      obtain ⟨e1, e2, e3, e4⟩ := ih s
      refine ⟨e1, e2, ?_, e4⟩
      rw [e3]
      unfold meshNamesOf
      rw [List.filterMap_cons]
      simp [hf]
    | some obj =>
      rw [hloop]
      simp only [hf]
      by_cases ht : obj.type = "MESH"
      · simp only [if_pos ht]
        obtain ⟨r1, r2, r3, r4⟩ := render_resolutions_facts obj icons_dir RESOLUTIONS s
        obtain ⟨e1, e2, e3, e4⟩ := ih (render_resolutions obj icons_dir RESOLUTIONS s).1
        have hcons : meshNamesOf s.objects (i :: rest) =
            obj.name :: meshNamesOf s.objects rest := by
          unfold meshNamesOf
          rw [List.filterMap_cons]
          simp [hf, ht]
        refine ⟨e1.trans r1, e2.trans r2, ?_, ?_⟩
        · rw [renderPaths_append, renderPaths_append, renderPaths_append, r3, e3,
            meshNamesOf_congr r1 rest, hcons, List.flatMap_cons]
          simp [renderPaths]
        · rw [countOriginSet_append, countOriginSet_append, countOriginSet_append, r4, e4]
          rfl
      · rw [if_neg ht]
        obtain ⟨e1, e2, e3, e4⟩ := ih s
        refine ⟨e1, e2, ?_, e4⟩
        rw [e3]
        unfold meshNamesOf
        rw [List.filterMap_cons]
        simp [hf, ht]

/-- Lemma: `create_setup_collection` does not change the fresh-id supply. -/
theorem create_setup_nextId (s : SceneState) :
    (create_setup_collection s).1.nextId = s.nextId := by
  unfold create_setup_collection
  split <;> rfl

/-- Appending objects with ids at least `n` to a list whose ids are distinct
and below `n` keeps the id list duplicate-free. -/
theorem nodup_append_ge (l news : List SceneObject) (n : Nat)
    (hnd : (l.map SceneObject.id).Nodup) (hb : ∀ x ∈ l, x.id < n)
    (hnewnd : (news.map SceneObject.id).Nodup) (hge : ∀ o ∈ news, n ≤ o.id) :
    ((l ++ news).map SceneObject.id).Nodup := by
  rw [List.map_append, List.nodup_append]
  refine ⟨hnd, hnewnd, ?_⟩
  intro x hx hx2
  obtain ⟨ox, hox, rfl⟩ := List.mem_map.mp hx
  obtain ⟨oy, hoy, he⟩ := List.mem_map.mp hx2
  have h1 := hb ox hox
  have h2 := hge oy hoy
  omega

/-- Appending objects whose ids avoid all the looked-up ids does not change
the mesh-name lookup. -/
theorem meshNamesOf_append_fresh (l news : List SceneObject) (ids : List Nat)
    (h : ∀ i ∈ ids, ∀ o ∈ news, ¬ o.id = i) :
    meshNamesOf (l ++ news) ids = meshNamesOf l ids := by
  unfold meshNamesOf
  apply List.filterMap_congr
  intro i hi
  rw [find?_append_false _ _ _ (fun o ho => decide_eq_false (h i hi o ho))]

/-- The object list after the whole setup phase: the original objects plus
the camera and (when lights were created) the three lights, all with fresh
ids. -/
theorem setup_phase_objects_cases (s : SceneState) :
    (setup_phase s).1.objects = s.objects ++ [cameraObj s.nextId] ∨
    (setup_phase s).1.objects = s.objects ++
      [cameraObj s.nextId, pointLightObj (s.nextId + 1) "KeyLight" 3000 ⟨5, -5, 5⟩,
       pointLightObj (s.nextId + 2) "FillLight" 1500 ⟨-5, -5, 5⟩,
       pointLightObj (s.nextId + 3) "BackLight" 900 ⟨0, 5, 5⟩] := by
  have hobj1 : (create_setup_collection s).1.objects = s.objects :=
    create_setup_collection_objects s
  have hnext1 : (create_setup_collection s).1.nextId = s.nextId := create_setup_nextId s
  have hobj2 : (add_camera_to_collection "Setup" (create_setup_collection s).1).1.objects =
      s.objects ++ [cameraObj s.nextId] := by
    show (create_setup_collection s).1.objects ++ [cameraObj (create_setup_collection s).1.nextId] =
      s.objects ++ [cameraObj s.nextId]
    rw [hobj1, hnext1]
  have hnext2 : (add_camera_to_collection "Setup" (create_setup_collection s).1).1.nextId =
      s.nextId + 1 := by
    show (create_setup_collection s).1.nextId + 1 = s.nextId + 1
    rw [hnext1]
  have hproj : (setup_phase s).1.objects =
      (add_3_point_lighting_to_collection "Setup"
        (add_camera_to_collection "Setup" (create_setup_collection s).1).1).1.objects := rfl
  rw [hproj]
  unfold add_3_point_lighting_to_collection
  split
  · left
    exact hobj2
  · right
    rw [mkPointLight_objects, mkPointLight_objects, mkPointLight_objects]
    have e1 : (mkPointLight (add_camera_to_collection "Setup"
        (create_setup_collection s).1).1 "KeyLight" 3000 ⟨5, -5, 5⟩ "Setup").1.nextId =
        s.nextId + 2 := by
      show (add_camera_to_collection "Setup" (create_setup_collection s).1).1.nextId + 1 =
        s.nextId + 2
      rw [hnext2]
    have e2 : (mkPointLight (mkPointLight (add_camera_to_collection "Setup"
        (create_setup_collection s).1).1 "KeyLight" 3000 ⟨5, -5, 5⟩ "Setup").1
        "FillLight" 1500 ⟨-5, -5, 5⟩ "Setup").1.nextId = s.nextId + 3 := by
      show (mkPointLight (add_camera_to_collection "Setup"
        (create_setup_collection s).1).1 "KeyLight" 3000 ⟨5, -5, 5⟩ "Setup").1.nextId + 1 =
        s.nextId + 3
      rw [e1]
    rw [hobj2, hnext2, e1, e2]
    simp

/-- Lemma: `find?` by name commutes with a name-preserving map. -/
theorem find?_map_name (g : SceneCollection → SceneCollection) (n : String)
    (hname : ∀ c, (g c).name = c.name) (l : List SceneCollection) :
    (l.map g).find? (fun c => c.name = n) =
      Option.map g (l.find? (fun c => c.name = n)) := by
  induction l with
  | nil => rfl
  | cons c t ih =>
    by_cases hp : c.name = n
    · rw [List.map_cons, List.find?_cons_of_pos _ (by simp [hname, hp]),
        List.find?_cons_of_pos _ (by simp [hp])]
      rfl
    · rw [List.map_cons, List.find?_cons_of_neg _ (by simp [hname, hp]),
        List.find?_cons_of_neg _ (by simp [hp])]
      exact ih

/-- Two states with the same collections resolve `getCollection` alike. -/
theorem getCollection_collections {s s' : SceneState}
    (h : s'.collections = s.collections) (n : String) :
    getCollection s' n = getCollection s n := by
  unfold getCollection
  rw [h]

/-- Linking into a differently-named collection does not change a lookup. -/
theorem getCollection_link_other (s : SceneState) (cn n : String) (i : Nat)
    (hne : n ≠ cn) :
    getCollection (linkToCollection s cn i) n = getCollection s n := by
  unfold getCollection linkToCollection
  rw [find?_map_name _ n (fun c => by by_cases h : c.name = cn <;> simp [h]) _]
  cases hf : s.collections.find? (fun c => c.name = n) with
  | none => rfl
  | some c0 =>
    have hc0 : c0.name = n := by simpa using List.find?_some hf
    show some (if c0.name = cn then { c0 with objectIds := c0.objectIds ++ [i] } else c0) =
      some c0
    rw [if_neg (by rw [hc0]; exact hne)]

/-- Creating the "Setup" collection does not change another lookup. -/
theorem getCollection_create_setup (s : SceneState) (n : String) (hn : n ≠ "Setup") :
    getCollection (create_setup_collection s).1 n = getCollection s n := by
  unfold create_setup_collection
  split
  · show getCollection
      { s with collections := s.collections ++ [{ name := "Setup", objectIds := [] }] } n =
      getCollection s n
    unfold getCollection
    exact find?_append_false _ _ _ (fun c hc => by
      rw [List.mem_singleton] at hc
      subst hc
      exact decide_eq_false (fun he => hn he.symm))
  · rfl

/-- Adding the camera does not change a lookup of another name. -/
theorem getCollection_add_camera (cn n : String) (s : SceneState) (hne : n ≠ cn) :
    getCollection (add_camera_to_collection cn s).1 n = getCollection s n := by
  show getCollection (linkToCollection
    { s with objects := s.objects ++ [cameraObj s.nextId], nextId := s.nextId + 1 }
    cn s.nextId) n = getCollection s n
  rw [getCollection_link_other _ _ _ _ hne]
  exact getCollection_collections rfl n

/-- Adding the lights does not change a lookup of another name. -/
theorem getCollection_add_3 (cn n : String) (s : SceneState) (hne : n ≠ cn) :
    getCollection (add_3_point_lighting_to_collection cn s).1 n = getCollection s n := by
  have l1 : ∀ (u : SceneState) (nm : String) (e : ℚ) (loc : Vec3),
      getCollection (mkPointLight u nm e loc cn).1 n = getCollection u n := by
    intro u nm e loc
    unfold mkPointLight
    rw [getCollection_link_other _ _ _ _ hne]
    exact getCollection_collections rfl n
  unfold add_3_point_lighting_to_collection
  split
  · rfl
  · rw [l1, l1, l1]

/-- Lemma: `ensure_unique_in_collection` transforms a lookup pointwise. -/
theorem getCollection_ensure_unique (cn n : String) (ids : List Nat) (s : SceneState) :
    getCollection (ensure_unique_in_collection cn ids s).1 n =
      Option.map (fun c =>
        if c.name ≠ cn then { c with objectIds := c.objectIds.filter (fun j => j ∉ ids) }
        else c) (getCollection s n) := by
  unfold getCollection
  rw [ensure_unique_collections]
  exact find?_map_name _ n (fun c => by by_cases h : c.name ≠ cn <;> simp [h]) _

/-- All ids of the "Target" collection are below the fresh-id supply. -/
theorem targetIds_bound (s : SceneState) (hwf : WF s) :
    ∀ i ∈ targetIdsOf s, i < s.nextId := by
  unfold targetIdsOf
  cases hg : getCollection s "Target" with
  | none => simp
  | some c0 =>
    intro i hi
    simp only [Option.map_some', Option.getD_some] at hi
    exact hwf.collIdsBound c0 (List.mem_of_find?_eq_some hg) i hi

/-- The camera id and the returned light ids are at least the original
fresh-id supply. -/
theorem setup_phase_fresh (s : SceneState) :
    ∀ i ∈ (setup_phase s).2.1 :: (setup_phase s).2.2.1, s.nextId ≤ i := by
  have hs1 : (create_setup_collection s).1.nextId = s.nextId := create_setup_nextId s
  have hn2 : (add_camera_to_collection "Setup" (create_setup_collection s).1).1.nextId =
      s.nextId + 1 := by
    show (create_setup_collection s).1.nextId + 1 = s.nextId + 1
    rw [hs1]
  intro i hi
  rcases List.mem_cons.mp hi with rfl | hi2
  · show s.nextId ≤ (create_setup_collection s).1.nextId
    rw [hs1]
  · have hli : (setup_phase s).2.2.1 =
        (add_3_point_lighting_to_collection "Setup"
          (add_camera_to_collection "Setup" (create_setup_collection s).1).1).2.1 := rfl
    rw [hli] at hi2
    unfold add_3_point_lighting_to_collection at hi2
    split at hi2
    · simp at hi2
    · simp only [List.mem_cons, List.not_mem_nil, or_false] at hi2
      rcases hi2 with rfl | rfl | rfl
      · show s.nextId ≤ (add_camera_to_collection "Setup" (create_setup_collection s).1).1.nextId
        rw [hn2]
        omega
      · show s.nextId ≤ (mkPointLight (add_camera_to_collection "Setup"
          (create_setup_collection s).1).1 "KeyLight" 3000 ⟨5, -5, 5⟩ "Setup").1.nextId
        show s.nextId ≤ (add_camera_to_collection "Setup"
          (create_setup_collection s).1).1.nextId + 1
        rw [hn2]
        omega
      · show s.nextId ≤ (mkPointLight (mkPointLight (add_camera_to_collection "Setup"
          (create_setup_collection s).1).1 "KeyLight" 3000 ⟨5, -5, 5⟩ "Setup").1
          "FillLight" 1500 ⟨-5, -5, 5⟩ "Setup").1.nextId
        show s.nextId ≤ (add_camera_to_collection "Setup"
          (create_setup_collection s).1).1.nextId + 1 + 1
        rw [hn2]
        omega

/-- The "Target" member list survives the setup phase unchanged (the camera
and lights have fresh ids, so the unlinking filter removes nothing). -/
theorem targetIds_after_setup (s : SceneState) (hwf : WF s) :
    targetIdsOf (setup_phase s).1 = targetIdsOf s := by
  have hne : ("Target" : String) ≠ "Setup" := by decide
  have hproj : (setup_phase s).1 = (ensure_unique_in_collection "Setup"
      ((setup_phase s).2.1 :: (setup_phase s).2.2.1)
      { (add_3_point_lighting_to_collection "Setup"
          (add_camera_to_collection "Setup" (create_setup_collection s).1).1).1 with
        sceneCamera := some (add_camera_to_collection "Setup"
          (create_setup_collection s).1).2.1 }).1 := rfl
  have hx : getCollection { (add_3_point_lighting_to_collection "Setup"
      (add_camera_to_collection "Setup" (create_setup_collection s).1).1).1 with
      sceneCamera := some (add_camera_to_collection "Setup"
        (create_setup_collection s).1).2.1 } "Target" = getCollection s "Target" := by
    show getCollection (add_3_point_lighting_to_collection "Setup"
      (add_camera_to_collection "Setup" (create_setup_collection s).1).1).1 "Target" =
      getCollection s "Target"
    rw [getCollection_add_3 "Setup" "Target" _ hne,
        getCollection_add_camera "Setup" "Target" _ hne,
        getCollection_create_setup s "Target" hne]
  unfold targetIdsOf
  rw [hproj, getCollection_ensure_unique, hx]
  cases hg : getCollection s "Target" with
  | none => rfl
  | some c0 =>
    have hgf : s.collections.find? (fun c => c.name = "Target") = some c0 := hg
    have hc0name : c0.name = "Target" := by simpa using List.find?_some hgf
    have hc0mem : c0 ∈ s.collections := List.mem_of_find?_eq_some hgf
    simp only [Option.map_some', Option.getD_some]
    rw [if_pos (by rw [hc0name]; exact hne)]
    show List.filter _ c0.objectIds = c0.objectIds
    apply List.filter_eq_self.mpr
    intro j hj
    apply decide_eq_true
    intro hjin
    have h1 := setup_phase_fresh s j hjin
    have h2 := hwf.collIdsBound c0 hc0mem j hj
    omega

/-- After the setup phase the object ids are still duplicate-free and the
mesh-name lookup over the original "Target" ids is unchanged. -/
theorem setup_phase_wf_facts (s : SceneState) (hwf : WF s) :
    (((setup_phase s).1.objects.map SceneObject.id).Nodup) ∧
    meshNamesOf (setup_phase s).1.objects (targetIdsOf s) =
      meshNamesOf s.objects (targetIdsOf s) := by
  have hb := targetIds_bound s hwf
  rcases setup_phase_objects_cases s with h | h <;> rw [h]
  · constructor
    · apply nodup_append_ge _ _ s.nextId hwf.idsNodup hwf.idsBound
      · simp
      · intro o ho
        rw [List.mem_singleton] at ho
        subst ho
        exact Nat.le_refl _
    · apply meshNamesOf_append_fresh
      intro i hi o ho heq
      rw [List.mem_singleton] at ho
      subst ho
      have := hb i hi
      simp only [cameraObj] at heq
      omega
  · constructor
    · apply nodup_append_ge _ _ s.nextId hwf.idsNodup hwf.idsBound
      · simp [cameraObj, pointLightObj]
      · intro o ho
        simp only [List.mem_cons, List.not_mem_nil, or_false] at ho
        rcases ho with rfl | rfl | rfl | rfl <;> simp [cameraObj, pointLightObj]
    · apply meshNamesOf_append_fresh
      intro i hi o ho heq
      have := hb i hi
      simp only [List.mem_cons, List.not_mem_nil, or_false] at ho
      rcases ho with rfl | rfl | rfl | rfl <;> simp [cameraObj, pointLightObj] at heq <;> omega

/-- Lemma: `create_setup_collection` emits only prints. -/
theorem create_setup_events (s : SceneState) :
    renderPaths (create_setup_collection s).2 = [] ∧
      countOriginSet (create_setup_collection s).2 = 0 := by
  unfold create_setup_collection
  split <;> exact ⟨rfl, rfl⟩

/-- Lemma: `add_3_point_lighting_to_collection` emits only prints. -/
theorem add_3_events (cn : String) (s : SceneState) :
    renderPaths (add_3_point_lighting_to_collection cn s).2.2 = [] ∧
      countOriginSet (add_3_point_lighting_to_collection cn s).2.2 = 0 := by
  unfold add_3_point_lighting_to_collection
  split <;> exact ⟨rfl, rfl⟩

/-- The setup phase emits no render and no origin-set call. -/
theorem setup_phase_events (s : SceneState) :
    renderPaths (setup_phase s).2.2.2 = [] ∧ countOriginSet (setup_phase s).2.2.2 = 0 := by
  have hproj : (setup_phase s).2.2.2 =
      (create_setup_collection s).2
        ++ [Event.printed "Adding camera..."]
        ++ (add_3_point_lighting_to_collection "Setup"
            (add_camera_to_collection "Setup" (create_setup_collection s).1).1).2.2
        ++ [Event.printed "Ensured objects are unique to the \x27Setup\x27 collection."]
        ++ [Event.printed "Setup complete! Camera and 3-point lighting added to the \x27Setup\x27 collection."] := rfl
  obtain ⟨c1, c2⟩ := create_setup_events s
  obtain ⟨a1, a2⟩ := add_3_events "Setup"
    (add_camera_to_collection "Setup" (create_setup_collection s).1).1
  rw [hproj]
  constructor
  · rw [renderPaths_append, renderPaths_append, renderPaths_append, renderPaths_append,
      c1, a1]
    rfl
  · rw [countOriginSet_append, countOriginSet_append, countOriginSet_append,
      countOriginSet_append, c2, a2]
    rfl

/-- Lemma: `create_icons_folder` emits no render and no origin-set call. -/
theorem create_icons_events (fp : String) (fs : String → Bool) :
    renderPaths (create_icons_folder fp fs).2 = [] ∧
      countOriginSet (create_icons_folder fp fs).2 = 0 := by
  unfold create_icons_folder
  by_cases h : fs (os_path_join (os_path_dirname fp) "Icons") = true
  · simp [h]
    exact ⟨rfl, rfl⟩
  · simp [h]
    exact ⟨rfl, rfl⟩

/-- The "Icons" directory path returned by `create_icons_folder`. -/
theorem create_icons_folder_dir (fp : String) (fs : String → Bool) :
    (create_icons_folder fp fs).1 = os_path_join (os_path_dirname fp) "Icons" := by
  unfold create_icons_folder
  by_cases h : fs (os_path_join (os_path_dirname fp) "Icons") = true
  · simp [h]
  · simp [h]

/-- A missing collection name resolves to no collection. -/
theorem getCollection_eq_none (s : SceneState) (n : String)
    (h : hasCollection s n = false) : getCollection s n = none := by
  unfold hasCollection at h
  unfold getCollection
  rw [List.find?_eq_none]
  intro c hc
  simp only [List.any_eq_false] at h
  exact h c hc

/-- The full trace of a successful `script_main` run splits into a prefix `A`
(mode switch, setup, folder creation, standardization) with no renders and
one origin-set call per target mesh, and a suffix `B` (the render loop and
the final print) with no origin-set calls whose renders are exactly one path
per target mesh and resolution, in `RESOLUTIONS` order. -/
theorem script_main_trace (fp : String) (fs : String → Bool) (s0 s' : SceneState)
    (evs : List Event) (hwf : WF s0)
    (hrun : script_main fp fs s0 = Except.ok (s', evs)) :
    ∃ A B, evs = A ++ B ∧
      renderPaths A = [] ∧
      countOriginSet A = (targetMeshNames s0).length ∧
      countOriginSet B = 0 ∧
      renderPaths B = (targetMeshNames s0).flatMap
        (fun n => RESOLUTIONS.map (fun r => icon_output_path fp n r)) := by
  unfold script_main at hrun
  by_cases ht : hasCollection (ensure_object_mode s0).1 "Target" = true
  · rw [if_neg (by simp [ht])] at hrun
    have hwfM : WF (ensure_object_mode s0).1 :=
      ⟨hwf.idsNodup, hwf.idsBound, hwf.collIdsBound⟩
    have htgt : targetIdsOf (setup_phase (ensure_object_mode s0).1).1 =
        targetIdsOf (ensure_object_mode s0).1 :=
      targetIds_after_setup (ensure_object_mode s0).1 hwfM
    obtain ⟨hnd1, hmesh1⟩ := setup_phase_wf_facts (ensure_object_mode s0).1 hwfM
    cases hstd : standardize_loop
        (((getCollection (setup_phase (ensure_object_mode s0).1).1 "Target").map
          SceneCollection.objectIds).getD [])
        (setup_phase (ensure_object_mode s0).1).1 with
    | error e =>
      simp only [hstd] at hrun
      exact absurd hrun (by simp)
    | ok p =>
      obtain ⟨s2, evStd⟩ := p
      simp only [hstd, Except.ok.injEq, Prod.mk.injEq] at hrun
      obtain ⟨hs', hevs⟩ := hrun
      subst hs' hevs
      obtain ⟨hsig2, hcoll2, hrpStd, hcoStd⟩ := standardize_loop_facts _ _ _ _ hnd1 hstd
      have hmeshchain : meshNamesOf s2.objects
          (((getCollection (setup_phase (ensure_object_mode s0).1).1 "Target").map
            SceneCollection.objectIds).getD []) = targetMeshNames s0 := by
        have e1 := meshNamesOf_congr hsig2
          (((getCollection (setup_phase (ensure_object_mode s0).1).1 "Target").map
            SceneCollection.objectIds).getD [])
        rw [e1]
        have e2 : (((getCollection (setup_phase (ensure_object_mode s0).1).1 "Target").map
            SceneCollection.objectIds).getD []) =
            targetIdsOf (setup_phase (ensure_object_mode s0).1).1 := rfl
        rw [e2, htgt]
        exact hmesh1
      have hmeshchain1 : meshNamesOf (setup_phase (ensure_object_mode s0).1).1.objects
          (((getCollection (setup_phase (ensure_object_mode s0).1).1 "Target").map
            SceneCollection.objectIds).getD []) = targetMeshNames s0 := by
        have e2 : (((getCollection (setup_phase (ensure_object_mode s0).1).1 "Target").map
            SceneCollection.objectIds).getD []) =
            targetIdsOf (setup_phase (ensure_object_mode s0).1).1 := rfl
        rw [e2, htgt]
        exact hmesh1
      obtain ⟨hsigR, hcollR, hrpR, hcoR⟩ := render_loop_facts (create_icons_folder fp fs).1
        (((getCollection (setup_phase (ensure_object_mode s0).1).1 "Target").map
          SceneCollection.objectIds).getD []) s2
      obtain ⟨hsu1, hsu2⟩ := setup_phase_events (ensure_object_mode s0).1
      obtain ⟨hic1, hic2⟩ := create_icons_events fp fs
      refine ⟨(ensure_object_mode s0).2 ++ (setup_phase (ensure_object_mode s0).1).2.2.2
          ++ (create_icons_folder fp fs).2 ++ evStd,
        (render_loop (create_icons_folder fp fs).1
          (((getCollection (setup_phase (ensure_object_mode s0).1).1 "Target").map
            SceneCollection.objectIds).getD []) s2).2
          ++ [Event.printed "Rendering complete! All icons saved in the \x27Icons\x27 folder."],
        ?_, ?_, ?_, ?_, ?_⟩
      · simp [List.append_assoc]
      · rw [renderPaths_append, renderPaths_append, renderPaths_append,
          hsu1, hic1, hrpStd]
        rfl
      · rw [countOriginSet_append, countOriginSet_append, countOriginSet_append,
          hsu2, hic2, hcoStd, hmeshchain1]
        have hz2 : countOriginSet (ensure_object_mode s0).2 = 0 := rfl
        rw [hz2]
        omega
      · rw [countOriginSet_append, hcoR]
        rfl
      · rw [renderPaths_append, hrpR, hmeshchain]
        rw [create_icons_folder_dir]
        have hz : renderPaths [Event.printed
            "Rendering complete! All icons saved in the \x27Icons\x27 folder."] =
            ([] : List String) := rfl
        rw [hz, List.append_nil]
        rfl
  · rw [if_pos (by simpa using ht)] at hrun
    simp only [Except.ok.injEq, Prod.mk.injEq] at hrun
    obtain ⟨hs', hevs⟩ := hrun
    subst hs' hevs
    have hnone : getCollection s0 "Target" = none := by
      apply getCollection_eq_none
      have h2 : hasCollection (ensure_object_mode s0).1 "Target" = false :=
        Bool.not_eq_true _ ▸ (by simpa using ht)
      exact h2
    have hempty : targetMeshNames s0 = [] := by
      unfold targetMeshNames targetIdsOf
      rw [hnone]
      rfl
    refine ⟨(ensure_object_mode s0).2
        ++ [Event.printed "Collection \x27Target\x27 does not exist."], [], by simp, rfl, ?_, rfl, ?_⟩
    · rw [hempty]
      rfl
    · rw [hempty]
      rfl

/-- C7: `main` processes exactly the mesh-typed objects of the "Target"
collection.  The successful trace splits as `A ++ B` where `A` (setup and
standardization) contains no render and exactly one origin-set operator call
per target mesh — each mesh is standardized once, before any render — and
`B` contains no origin-set call and renders exactly once per mesh and per
resolution, iterating the resolutions in the fixed order 1024, 512, 256,
128, 64; non-mesh members of "Target" contribute neither a standardization
nor a render. -/
theorem C7_meshes_standardized_then_rendered (fp : String) (fs : String → Bool)
    (s0 s' : SceneState) (evs : List Event) (hwf : WF s0)
    (hrun : script_main fp fs s0 = Except.ok (s', evs)) :
    ∃ A B, evs = A ++ B ∧
      renderPaths A = [] ∧
      countOriginSet A = (targetMeshNames s0).length ∧
      countOriginSet B = 0 ∧
      renderPaths B = (targetMeshNames s0).flatMap
        (fun n => RESOLUTIONS.map (fun r => icon_output_path fp n r)) :=
  script_main_trace fp fs s0 s' evs hwf hrun

/-- C2: output path determinism.  The render filepaths passed to the host by
a successful `main` run are exactly `Icons/N/R.png` under the directory of
the source scene file — one for each mesh name `N` of the "Target"
collection and each resolution `R` of `RESOLUTIONS`, and nothing else; the
path depends only on `N`, `R` and the scene file location. -/
theorem C2_output_path_determinism (fp : String) (fs : String → Bool)
    (s0 s' : SceneState) (evs : List Event) (hwf : WF s0)
    (hrun : script_main fp fs s0 = Except.ok (s', evs)) :
    renderPaths evs = (targetMeshNames s0).flatMap
      (fun n => RESOLUTIONS.map (fun r => icon_output_path fp n r)) := by
  obtain ⟨A, B, hAB, hrA, _, _, hrB⟩ := script_main_trace fp fs s0 s' evs hwf hrun
  subst hAB
  rw [renderPaths_append, hrA, hrB]
  rfl

/-- The demo run succeeds and returns exactly the projected state and
trace. -/
theorem demoRun_ok : script_main "proj/scene.blend" (fun _ => false) demoSceneEmptyTarget =
    Except.ok (demoRunState, demoRunEvents) := rfl

/-- Witness for C7 at the concrete demo scene. -/
theorem C7_meshes_standardized_then_rendered_witness :
    ∃ A B, demoRunEvents = A ++ B ∧
      renderPaths A = [] ∧
      countOriginSet A = (targetMeshNames demoSceneEmptyTarget).length ∧
      countOriginSet B = 0 ∧
      renderPaths B = (targetMeshNames demoSceneEmptyTarget).flatMap
        (fun n => RESOLUTIONS.map (fun r => icon_output_path "proj/scene.blend" n r)) :=
  C7_meshes_standardized_then_rendered "proj/scene.blend" (fun _ => false)
    demoSceneEmptyTarget demoRunState demoRunEvents
    ⟨by decide, by decide, by decide⟩ demoRun_ok

/-- Witness for C2 at the concrete demo scene. -/
theorem C2_output_path_determinism_witness :
    renderPaths demoRunEvents = (targetMeshNames demoSceneEmptyTarget).flatMap
      (fun n => RESOLUTIONS.map (fun r => icon_output_path "proj/scene.blend" n r)) :=
  C2_output_path_determinism "proj/scene.blend" (fun _ => false)
    demoSceneEmptyTarget demoRunState demoRunEvents
    ⟨by decide, by decide, by decide⟩ demoRun_ok
